import Mathlib

/-!
# keadm edge installer: `edgecoreinstaller.go`

A shallow embedding of `keadm/cmd/keadm/app/cmd/util/edgecoreinstaller.go`
(`InstallTools`, `createEdgeConfigFiles`, `CopyFile`, `TearDown`) together with
the parts of `github.com/blang/semver` and of the Go standard library that the
file calls, followed by theorems about the embedding.

Go strings are modelled by `String`, Go `error` values by `Option GoError`
(`none` is `nil`), unsigned 64-bit version components by `Nat` (they are only
compared, never computed with).
-/

namespace KubeEdge

/-! ## `github.com/blang/semver` -/

/-- Pre-release identifier of a semantic version (`semver.PRVersion`). -/
structure PRVersion where
  VersionStr : String
  VersionNum : Nat
  IsNum : Bool
  deriving DecidableEq, Repr

/-- Semantic version (`semver.Version`). -/
structure Version where
  Major : Nat
  Minor : Nat
  Patch : Nat
  Pre : List PRVersion
  Build : List String
  deriving DecidableEq, Repr

/-- `PRVersion.Compare`: numeric identifiers sort below alphanumeric ones,
numeric ones compare as numbers, alphanumeric ones as strings. -/
def PRVersion.Compare (v o : PRVersion) : Int :=
  if v.IsNum && !o.IsNum then -1
  else if !v.IsNum && o.IsNum then 1
  else if v.IsNum && o.IsNum then
    if v.VersionNum = o.VersionNum then 0
    else if v.VersionNum > o.VersionNum then 1
    else -1
  else
    if v.VersionStr = o.VersionStr then 0
    else if v.VersionStr > o.VersionStr then 1
    else -1

/-- The loop of `Version.Compare` over the two pre-release lists, together with
the length comparison that follows it. -/
def comparePre : List PRVersion → List PRVersion → Int
  | [], [] => 0
  | [], _ :: _ => -1
  | _ :: _, [] => 1
  | a :: as, b :: bs =>
    let comp := a.Compare b
    if comp = 0 then comparePre as bs
    else if comp = 1 then 1
    else -1

/-- `Version.Compare`: major, minor, patch, then the pre-release identifiers;
build metadata has no precedence. -/
def Version.Compare (v o : Version) : Int :=
  if v.Major ≠ o.Major then
    if v.Major > o.Major then 1 else -1
  else if v.Minor ≠ o.Minor then
    if v.Minor > o.Minor then 1 else -1
  else if v.Patch ≠ o.Patch then
    if v.Patch > o.Patch then 1 else -1
  else if v.Pre.length = 0 && o.Pre.length = 0 then 0
  else if v.Pre.length = 0 && o.Pre.length > 0 then 1
  else if v.Pre.length > 0 && o.Pre.length = 0 then -1
  else comparePre v.Pre o.Pre

/-- `Version.GE`. -/
def Version.GE (v o : Version) : Bool :=
  decide (v.Compare o ≥ 0)

/-- The value of `semver.MustParse("1.2.0")`. -/
def v1_2_0 : Version := ⟨1, 2, 0, [], []⟩

/-! ## Go standard library -/

/-- Go `error` values, identified by their message. -/
abbrev GoError := String

/-- `os.ModePerm`. -/
def ModePerm : Nat := 0o777

/-- The scanning loop of `strings.Split` for a non-empty separator: `cur` holds
the current piece in reverse, `skip` the number of characters of a separator
occurrence still to be stepped over.  Occurrences are found left to right and
do not overlap. -/
def splitLoop (sep : List Char) : List Char → List Char → Nat → List (List Char)
  | [], cur, _ => [cur.reverse]
  | _ :: rest, cur, skip + 1 => splitLoop sep rest cur skip
  | c :: rest, cur, 0 =>
    if sep.isPrefixOf (c :: rest) then
      cur.reverse :: splitLoop sep rest [] (sep.length - 1)
    else splitLoop sep rest (c :: cur) 0

/-- `strings.Split(s, sep)`: the pieces of `s` between the occurrences of
`sep`; with an empty separator `s` is exploded into its characters. -/
def stringsSplit (s sep : String) : List String :=
  if sep.data = [] then s.data.map (fun c => String.mk [c])
  else (splitLoop sep.data s.data [] 0).map String.mk

/-- `strings.Join(elems, sep)`. -/
def stringsJoin (elems : List String) (sep : String) : String :=
  sep.intercalate elems

/-- With a non-empty separator the scanning loop always yields a piece. -/
theorem splitLoop_ne_nil (sep s cur : List Char) (skip : Nat) :
    splitLoop sep s cur skip ≠ [] := by
  induction s generalizing cur skip with
  | nil => simp [splitLoop]
  | cons c rest ih =>
    cases skip with
    | zero =>
      unfold splitLoop
      split
      · simp
      · exact ih _ _
    | succ k =>
      unfold splitLoop
      exact ih _ _

/-- `strings.Split` with a non-empty separator never returns an empty slice. -/
theorem stringsSplit_ne_nil (s sep : String) (h : sep.data ≠ []) :
    stringsSplit s sep ≠ [] := by
  simp [stringsSplit, h, splitLoop_ne_nil]

/-- The expression `strings.Split(CloudCoreIP, ":")[0]`; index 0 is in range
because the split result is never empty. -/
def splitHost (CloudCoreIP : String) : String :=
  (stringsSplit CloudCoreIP ":").head (stringsSplit_ne_nil CloudCoreIP ":" (by decide))

/-! ## Configuration documents -/

/-- Modelled from the spec: the two values of the cgroup driver enum
`{systemd, cgroupfs}`, declared in `pkg/apis/componentconfig/edgecore/v1alpha1`. -/
def CGroupDriverSystemd : String := "systemd"

/-- Modelled from the spec: see `CGroupDriverSystemd`. -/
def CGroupDriverCGroupFS : String := "cgroupfs"

/-- The type `v1alpha1.EdgeHubWebSocket`: the field the installer assigns, and
`rest` for all the fields it never touches (`ρ` is left abstract). -/
structure EdgeHubWebSocket (ρ : Type) where
  Server : String
  rest : ρ
  deriving DecidableEq, Repr

/-- The type `v1alpha1.EdgeHubQUIC`. -/
structure EdgeHubQUIC (ρ : Type) where
  Server : String
  rest : ρ
  deriving DecidableEq, Repr

/-- The type `v1alpha1.EdgeHub`. -/
structure EdgeHub (ρ : Type) where
  WebSocket : EdgeHubWebSocket ρ
  Quic : EdgeHubQUIC ρ
  HTTPServer : String
  Token : String
  TLSPrivateKeyFile : String
  TLSCertFile : String
  rest : ρ
  deriving DecidableEq, Repr

/-- The type `v1alpha1.Edged`. -/
structure Edged (ρ : Type) where
  HostnameOverride : String
  NodeIP : String
  RuntimeType : String
  CGroupDriver : String
  RemoteRuntimeEndpoint : String
  RemoteImageEndpoint : String
  rest : ρ
  deriving DecidableEq, Repr

/-- The type `v1alpha1.EdgeStream`. -/
structure EdgeStream (ρ : Type) where
  TunnelServer : String
  Enable : Bool
  rest : ρ
  deriving DecidableEq, Repr

/-- The type `v1alpha1.Modules`. -/
structure Modules (ρ : Type) where
  EdgeHub : EdgeHub ρ
  Edged : Edged ρ
  EdgeStream : EdgeStream ρ
  rest : ρ
  deriving DecidableEq, Repr

/-- The type `v1alpha1.EdgeCoreConfig`, the modern (>= 1.2.0) document. -/
structure EdgeCoreConfig (ρ : Type) where
  Modules : Modules ρ
  rest : ρ
  deriving DecidableEq, Repr

/-- The type `types.WebSocketSt` of the legacy document, with the field the
installer sets. -/
structure WebSocketSt where
  URL : String
  deriving DecidableEq, Repr

/-- The type `types.EdgeHubSt`. -/
structure EdgeHubSt where
  WebSocket : WebSocketSt
  deriving DecidableEq, Repr

/-- The type `types.EdgeDSt`. -/
structure EdgeDSt where
  RuntimeType : String
  deriving DecidableEq, Repr

/-- The type `types.EdgeYamlSt`, the primary legacy (< 1.2.0) document. -/
structure EdgeYamlSt where
  EdgeHub : EdgeHubSt
  EdgeD : EdgeDSt
  deriving DecidableEq, Repr

/-- The type `types.ComponentType`. -/
inductive ComponentType where
  | CloudCore
  | EdgeCore
  deriving DecidableEq, Repr

/-- The type `types.InstallOptions`, with the fields `InstallTools` sets. -/
structure InstallOptions where
  TarballPath : String
  ComponentType : ComponentType
  deriving DecidableEq, Repr

/-! ## The installer -/

/-- The part of the embedded `Common` struct that the installer reads. -/
structure Common where
  ToolVersion : Version
  deriving DecidableEq, Repr

/-- The struct `KubeEdgeInstTool`. -/
structure KubeEdgeInstTool extends Common where
  CertPath : String
  CloudCoreIP : String
  EdgeNodeName : String
  EdgeNodeIP : String
  Region : String
  ConfigPath : String
  RuntimeType : String
  RemoteRuntimeEndpoint : String
  Token : String
  CertPort : String
  QuicPort : String
  TunnelPort : String
  CGroupDriver : String
  TarballPath : String
  DownloadURL : String
  deriving DecidableEq, Repr

/-- Package-level string constants of `util` and `types` that are declared
outside this file; their values are left open. -/
structure Consts where
  KubeEdgeBinaryName : String
  KubeEdgeNewConfigDir : String
  KubeEdgeEdgeCoreNewYaml : String
  KubeEdgeConfPath : String
  KubeEdgeConfigEdgeYaml : String
  KubeEdgeConfigModulesYaml : String
  KubeEdgeCloudDefaultCertPath : String
  DefaultProjectID : String
  deriving DecidableEq, Repr

/-- An external operation reached by the installer, with its arguments. -/
inductive Call (ρ : Type) where
  | SetOSInterface
  | IsKubeEdgeProcessRunning (name : String)
  | SetKubeEdgeVersion (version : Version)
  | InstallKubeEdge (options : InstallOptions) (downloadURL serviceFileURLFormat : String)
  | RunEdgeCore
  | KillKubeEdgeBinary (name : String)
  | MkdirAll (path : String) (perm : Nat)
  | Write2File (path : String) (doc : EdgeCoreConfig ρ)
  | uuidNew
  | WriteEdgeYamlFile (path : String) (doc : EdgeYamlSt)
  | WriteEdgeModulesYamlFile (path : String)
  | shOutput (command : String)
  | Printf (text : String)
  deriving DecidableEq, Repr

/-- The external collaborators, as functions on an abstract system state `σ`
(file system, process table, OS installer object, random source, stdout). -/
structure Ext (σ ρ : Type) where
  SetOSInterface : σ → σ
  IsKubeEdgeProcessRunning : String → σ → (Bool × Option GoError) × σ
  SetKubeEdgeVersion : Version → σ → σ
  InstallKubeEdge : InstallOptions → String → String → σ → Option GoError × σ
  RunEdgeCore : σ → Option GoError × σ
  KillKubeEdgeBinary : String → σ → Option GoError × σ
  MkdirAll : String → Nat → σ → Option GoError × σ
  NewDefaultEdgeCoreConfig : EdgeCoreConfig ρ
  Write2File : String → EdgeCoreConfig ρ → σ → Option GoError × σ
  uuidNew : σ → String × σ
  WriteEdgeYamlFile : String → EdgeYamlSt → σ → Option GoError × σ
  WriteEdgeModulesYamlFile : String → σ → Option GoError × σ
  shOutput : String → σ → (String × Option GoError) × σ
  Printf : String → σ → σ

/-- Everything the installer can change: the external system, the two
package-level URL templates, and the record of the external operations reached
so far, oldest first. -/
structure World (σ ρ : Type) where
  sys : σ
  KubeEdgeDownloadURL : String
  ServiceFileURLFormat : String
  calls : List (Call ρ)

/-- The pair of package-level URL templates. -/
def World.urls {σ ρ : Type} (w : World σ ρ) : String × String :=
  (w.KubeEdgeDownloadURL, w.ServiceFileURLFormat)

/-- Programs over a state `S` returning an `α`. -/
def Prog (S α : Type) : Type := S → α × S

instance (S : Type) : Monad (Prog S) where
  pure a := fun s => (a, s)
  bind x f := fun s => f (x s).1 (x s).2

/-- Reach the external operation `c`, implemented by `f`, and record it. -/
def call {σ ρ α : Type} (c : Call ρ) (f : σ → α × σ) : Prog (World σ ρ) α :=
  fun w => ((f w.sys).1, { w with sys := (f w.sys).2, calls := w.calls ++ [c] })

section Program

variable {σ ρ : Type}

/-- `ku.SetOSInterface(GetOSInterface())`. -/
def SetOSInterface (ext : Ext σ ρ) : Prog (World σ ρ) Unit :=
  call .SetOSInterface (fun s => ((), ext.SetOSInterface s))

/-- `ku.IsKubeEdgeProcessRunning(proc)`. -/
def IsKubeEdgeProcessRunning (ext : Ext σ ρ) (proc : String) :
    Prog (World σ ρ) (Bool × Option GoError) :=
  call (.IsKubeEdgeProcessRunning proc) (ext.IsKubeEdgeProcessRunning proc)

/-- `ku.SetKubeEdgeVersion(version)`. -/
def SetKubeEdgeVersion (ext : Ext σ ρ) (version : Version) : Prog (World σ ρ) Unit :=
  call (.SetKubeEdgeVersion version) (fun s => ((), ext.SetKubeEdgeVersion version s))

/-- `ku.InstallKubeEdge(options)`; the operation sees the current values of the
two package-level URL templates. -/
def InstallKubeEdge (ext : Ext σ ρ) (options : InstallOptions) :
    Prog (World σ ρ) (Option GoError) :=
  fun w => call (.InstallKubeEdge options w.KubeEdgeDownloadURL w.ServiceFileURLFormat)
    (ext.InstallKubeEdge options w.KubeEdgeDownloadURL w.ServiceFileURLFormat) w

/-- `ku.RunEdgeCore()`. -/
def RunEdgeCore (ext : Ext σ ρ) : Prog (World σ ρ) (Option GoError) :=
  call .RunEdgeCore ext.RunEdgeCore

/-- `ku.KillKubeEdgeBinary(proc)`. -/
def KillKubeEdgeBinary (ext : Ext σ ρ) (proc : String) : Prog (World σ ρ) (Option GoError) :=
  call (.KillKubeEdgeBinary proc) (ext.KillKubeEdgeBinary proc)

/-- `os.MkdirAll(path, perm)`. -/
def MkdirAll (ext : Ext σ ρ) (path : String) (perm : Nat) : Prog (World σ ρ) (Option GoError) :=
  call (.MkdirAll path perm) (ext.MkdirAll path perm)

/-- `types.Write2File(path, doc)`. -/
def Write2File (ext : Ext σ ρ) (path : String) (doc : EdgeCoreConfig ρ) :
    Prog (World σ ρ) (Option GoError) :=
  call (.Write2File path doc) (ext.Write2File path doc)

/-- `uuid.New().String()`. -/
def uuidNew (ext : Ext σ ρ) : Prog (World σ ρ) String :=
  call .uuidNew ext.uuidNew

/-- `types.WriteEdgeYamlFile(path, doc)`. -/
def WriteEdgeYamlFile (ext : Ext σ ρ) (path : String) (doc : EdgeYamlSt) :
    Prog (World σ ρ) (Option GoError) :=
  call (.WriteEdgeYamlFile path doc) (ext.WriteEdgeYamlFile path doc)

/-- `types.WriteEdgeModulesYamlFile(path)`. -/
def WriteEdgeModulesYamlFile (ext : Ext σ ρ) (path : String) :
    Prog (World σ ρ) (Option GoError) :=
  call (.WriteEdgeModulesYamlFile path) (ext.WriteEdgeModulesYamlFile path)

/-- `exec.Command("sh", "-c", c).Output()`. -/
def shOutput (ext : Ext σ ρ) (c : String) : Prog (World σ ρ) (String × Option GoError) :=
  call (.shOutput c) (ext.shOutput c)

/-- `fmt.Printf` of an already formatted text. -/
def Printf (ext : Ext σ ρ) (text : String) : Prog (World σ ρ) Unit :=
  call (.Printf text) (fun s => ((), ext.Printf text s))

/-- Assignment to the package-level variable `KubeEdgeDownloadURL`. -/
def setKubeEdgeDownloadURL (v : String) : Prog (World σ ρ) Unit :=
  fun w => ((), { w with KubeEdgeDownloadURL := v })

/-- Assignment to the package-level variable `ServiceFileURLFormat`. -/
def setServiceFileURLFormat (v : String) : Prog (World σ ρ) Unit :=
  fun w => ((), { w with ServiceFileURLFormat := v })

/-- The function `CopyFile`: runs `cp -r pathSrc pathDst` through the shell; a
failure is printed and not returned. -/
def CopyFile (ext : Ext σ ρ) (pathSrc pathDst : String) : Prog (World σ ρ) Unit := do
  let c := "cp -r " ++ pathSrc ++ " " ++ pathDst
  let (_, err) ← shOutput ext c
  match err with
  | some e =>
    Printf ext ("fail to copy file:  " ++ c)
    Printf ext ("Output: " ++ e ++ "\n")
  | none => pure ()

/-- The method `createEdgeConfigFiles`.  A conditional assignment to a local
variable, `if c { x = e }`, is written `x := if c then e else x`; `fmt.Sprintf`
and `fmt.Errorf` with `%s` verbs are written as concatenations. -/
def createEdgeConfigFiles (k : Consts) (ext : Ext σ ρ) (ku : KubeEdgeInstTool) :
    Prog (World σ ρ) (Option GoError) := do
  if ku.ToolVersion.GE v1_2_0 then
    let err ← MkdirAll ext k.KubeEdgeNewConfigDir ModePerm
    if err ≠ none then
      return some ("not able to create " ++ k.KubeEdgeNewConfigDir ++ " folder path")
    let mut edgeCoreConfig := ext.NewDefaultEdgeCoreConfig
    edgeCoreConfig := { edgeCoreConfig with Modules.EdgeHub.WebSocket.Server := ku.CloudCoreIP }
    edgeCoreConfig :=
      if ku.EdgeNodeName ≠ "" then
        { edgeCoreConfig with Modules.Edged.HostnameOverride := ku.EdgeNodeName }
      else edgeCoreConfig
    edgeCoreConfig :=
      if ku.EdgeNodeIP ≠ "" then
        { edgeCoreConfig with Modules.Edged.NodeIP := ku.EdgeNodeIP }
      else edgeCoreConfig
    edgeCoreConfig :=
      if ku.RuntimeType ≠ "" then
        { edgeCoreConfig with Modules.Edged.RuntimeType := ku.RuntimeType }
      else edgeCoreConfig
    if ku.CGroupDriver ≠ "" then
      if ku.CGroupDriver = CGroupDriverSystemd then
        edgeCoreConfig := { edgeCoreConfig with Modules.Edged.CGroupDriver := CGroupDriverSystemd }
      else if ku.CGroupDriver = CGroupDriverCGroupFS then
        edgeCoreConfig := { edgeCoreConfig with Modules.Edged.CGroupDriver := CGroupDriverCGroupFS }
      else
        return some ("unsupported CGroupDriver: " ++ ku.CGroupDriver)
    edgeCoreConfig :=
      if ku.RemoteRuntimeEndpoint ≠ "" then
        { edgeCoreConfig with
          Modules.Edged.RemoteRuntimeEndpoint := ku.RemoteRuntimeEndpoint
          Modules.Edged.RemoteImageEndpoint := ku.RemoteRuntimeEndpoint }
      else edgeCoreConfig
    edgeCoreConfig :=
      if ku.Token ≠ "" then
        { edgeCoreConfig with Modules.EdgeHub.Token := ku.Token }
      else edgeCoreConfig
    edgeCoreConfig :=
      if ku.CertPort ≠ "" then
        { edgeCoreConfig with
          Modules.EdgeHub.HTTPServer := "https://" ++ splitHost ku.CloudCoreIP ++ ":" ++ ku.CertPort }
      else
        { edgeCoreConfig with
          Modules.EdgeHub.HTTPServer := "https://" ++ splitHost ku.CloudCoreIP ++ ":10002" }
    edgeCoreConfig :=
      if ku.QuicPort ≠ "" then
        { edgeCoreConfig with
          Modules.EdgeHub.Quic.Server := splitHost ku.CloudCoreIP ++ ":" ++ ku.QuicPort }
      else
        { edgeCoreConfig with
          Modules.EdgeHub.Quic.Server := splitHost ku.CloudCoreIP ++ ":10001" }
    edgeCoreConfig :=
      if ku.TunnelPort ≠ "" then
        { edgeCoreConfig with
          Modules.EdgeStream.TunnelServer := splitHost ku.CloudCoreIP ++ ":" ++ ku.TunnelPort }
      else
        { edgeCoreConfig with
          Modules.EdgeStream.TunnelServer := splitHost ku.CloudCoreIP ++ ":10004" }
    edgeCoreConfig := { edgeCoreConfig with Modules.EdgeStream.Enable := true }
    edgeCoreConfig :=
      if ku.ToolVersion.Major = 1 ∧ ku.ToolVersion.Minor = 2 then
        { edgeCoreConfig with
          Modules.EdgeHub.TLSPrivateKeyFile :=
            stringsJoin [k.KubeEdgeCloudDefaultCertPath, "server.key"] ""
          Modules.EdgeHub.TLSCertFile :=
            stringsJoin [k.KubeEdgeCloudDefaultCertPath, "server.crt"] "" }
      else edgeCoreConfig
    let err ← Write2File ext k.KubeEdgeEdgeCoreNewYaml edgeCoreConfig
    if err ≠ none then
      return err
  else
    let err ← MkdirAll ext k.KubeEdgeConfPath ModePerm
    if err ≠ none then
      return some ("not able to create " ++ k.KubeEdgeConfPath ++ " folder path")
    let mut edgeID ← uuidNew ext
    edgeID := if "" ≠ ku.EdgeNodeName then ku.EdgeNodeName else edgeID
    let mut serverIPAddr := "0.0.0.0"
    serverIPAddr := if "" ≠ ku.CloudCoreIP then ku.CloudCoreIP else serverIPAddr
    let url := "wss://" ++ serverIPAddr ++ ":10000/" ++ k.DefaultProjectID ++ "/" ++ edgeID
      ++ "/events"
    let edgeYaml : EdgeYamlSt :=
      { EdgeHub := { WebSocket := { URL := url } }, EdgeD := { RuntimeType := ku.RuntimeType } }
    let err ← WriteEdgeYamlFile ext k.KubeEdgeConfigEdgeYaml edgeYaml
    if err ≠ none then
      return err
    let err ← WriteEdgeModulesYamlFile ext k.KubeEdgeConfigModulesYaml
    if err ≠ none then
      return err
  if "" ≠ ku.ConfigPath then
    CopyFile ext ku.ConfigPath "/etc/kubeedge/config/edgecore.yaml"
  return none

/-- The method `InstallTools`. -/
def InstallTools (k : Consts) (ext : Ext σ ρ) (ku : KubeEdgeInstTool) :
    Prog (World σ ρ) (Option GoError) := do
  SetOSInterface ext
  let (edgeCoreRunning, err) ← IsKubeEdgeProcessRunning ext k.KubeEdgeBinaryName
  if err ≠ none then
    return err
  if edgeCoreRunning then
    return some "EdgeCore is already running on this node, please run reset to clean up first"
  SetKubeEdgeVersion ext ku.ToolVersion
  let opts : InstallOptions := { TarballPath := ku.TarballPath, ComponentType := .EdgeCore }
  if ku.DownloadURL ≠ "" then
    setKubeEdgeDownloadURL (ku.DownloadURL ++ "/releases/download")
    setServiceFileURLFormat (ku.DownloadURL ++ "/releases/service/" ++ "%s" ++ "/" ++ "%s")
  if ku.Region = "en" then
    setKubeEdgeDownloadURL "https://github.com/kubeedge/kubeedge/releases/download"
    setServiceFileURLFormat
      "https://raw.githubusercontent.com/kubeedge/kubeedge/release-%s/build/tools/%s"
  let err ← InstallKubeEdge ext opts
  if err ≠ none then
    return err
  let err ← createEdgeConfigFiles k ext ku
  if err ≠ none then
    return err
  let err ← RunEdgeCore ext
  if err ≠ none then
    return err
  return none

/-- The method `TearDown`. -/
def TearDown (k : Consts) (ext : Ext σ ρ) (ku : KubeEdgeInstTool) :
    Prog (World σ ρ) (Option GoError) := do
  SetOSInterface ext
  SetKubeEdgeVersion ext ku.ToolVersion
  let err ← KillKubeEdgeBinary ext k.KubeEdgeBinaryName
  if err ≠ none then
    return err
  return none

end Program

/-! ## Observations on a run and the specification-side documents -/

section Observations

variable {σ ρ : Type}

/-- The external operations reached by running `p` from `w`, oldest first. -/
def callsOf {α : Type} (p : Prog (World σ ρ) α) (w : World σ ρ) : List (Call ρ) :=
  (p w).2.calls.drop w.calls.length

/-- The modern documents handed to `types.Write2File`, with their paths. -/
def writtenDocs : List (Call ρ) → List (String × EdgeCoreConfig ρ)
  | [] => []
  | .Write2File path doc :: cs => (path, doc) :: writtenDocs cs
  | _ :: cs => writtenDocs cs

/-- The legacy primary documents handed to `types.WriteEdgeYamlFile`, with their
paths. -/
def writtenEdgeYamls : List (Call ρ) → List (String × EdgeYamlSt)
  | [] => []
  | .WriteEdgeYamlFile path doc :: cs => (path, doc) :: writtenEdgeYamls cs
  | _ :: cs => writtenEdgeYamls cs

/-- The paths of the legacy modules documents handed to
`types.WriteEdgeModulesYamlFile`. -/
def writtenModulesYamls : List (Call ρ) → List String
  | [] => []
  | .WriteEdgeModulesYamlFile path :: cs => path :: writtenModulesYamls cs
  | _ :: cs => writtenModulesYamls cs

/-- Whether an operation is `InstallKubeEdge`. -/
def Call.isInstallKubeEdge : Call ρ → Bool
  | .InstallKubeEdge _ _ _ => true
  | _ => false

/-- Whether an operation is `RunEdgeCore`. -/
def Call.isRunEdgeCore : Call ρ → Bool
  | .RunEdgeCore => true
  | _ => false

/-- Whether an operation is `os.MkdirAll`, the first operation of every run of
`createEdgeConfigFiles`. -/
def Call.isMkdirAll : Call ρ → Bool
  | .MkdirAll _ _ => true
  | _ => false

/-- Whether an operation belongs to the legacy branch only: the identifier
generator and the writes of the two legacy documents. -/
def Call.isLegacyOp : Call ρ → Bool
  | .uuidNew => true
  | .WriteEdgeYamlFile _ _ => true
  | .WriteEdgeModulesYamlFile _ => true
  | _ => false

/-- The shell commands among some operations, oldest first. -/
def shellCommands : List (Call ρ) → List String
  | [] => []
  | .shOutput c :: cs => c :: shellCommands cs
  | _ :: cs => shellCommands cs

/-- The host of a cloud endpoint in the words of the specification: the prefix
before the first `':'`, the whole string when it has none. -/
def hostPrefix (CloudCoreIP : String) : String :=
  String.mk (CloudCoreIP.data.takeWhile (fun c => c ≠ ':'))

/-- The cgroup driver values the modern branch accepts: unset, or one of the
enum `{systemd, cgroupfs}`. -/
def validCGroupDriver (ku : KubeEdgeInstTool) : Prop :=
  ku.CGroupDriver = "" ∨ ku.CGroupDriver = CGroupDriverSystemd ∨
    ku.CGroupDriver = CGroupDriverCGroupFS

instance (ku : KubeEdgeInstTool) : Decidable (validCGroupDriver ku) := by
  unfold validCGroupDriver; infer_instance

/-- The modern document in the words of the specification: the default document
`d` with the caller's non-empty fields overlaid, the three endpoints derived
from the cloud host, the tunnel enabled and, for 1.2.x, the legacy TLS paths. -/
def modernDoc (k : Consts) (d : EdgeCoreConfig ρ) (ku : KubeEdgeInstTool) : EdgeCoreConfig ρ :=
  { Modules :=
      { EdgeHub :=
          { WebSocket := { Server := ku.CloudCoreIP, rest := d.Modules.EdgeHub.WebSocket.rest }
            Quic :=
              { Server :=
                  if ku.QuicPort = "" then splitHost ku.CloudCoreIP ++ ":10001"
                  else splitHost ku.CloudCoreIP ++ ":" ++ ku.QuicPort
                rest := d.Modules.EdgeHub.Quic.rest }
            HTTPServer :=
              if ku.CertPort = "" then "https://" ++ splitHost ku.CloudCoreIP ++ ":10002"
              else "https://" ++ splitHost ku.CloudCoreIP ++ ":" ++ ku.CertPort
            Token := if ku.Token = "" then d.Modules.EdgeHub.Token else ku.Token
            TLSPrivateKeyFile :=
              if ku.ToolVersion.Major = 1 ∧ ku.ToolVersion.Minor = 2 then
                k.KubeEdgeCloudDefaultCertPath ++ "server.key"
              else d.Modules.EdgeHub.TLSPrivateKeyFile
            TLSCertFile :=
              if ku.ToolVersion.Major = 1 ∧ ku.ToolVersion.Minor = 2 then
                k.KubeEdgeCloudDefaultCertPath ++ "server.crt"
              else d.Modules.EdgeHub.TLSCertFile
            rest := d.Modules.EdgeHub.rest }
        Edged :=
          { HostnameOverride :=
              if ku.EdgeNodeName = "" then d.Modules.Edged.HostnameOverride else ku.EdgeNodeName
            NodeIP := if ku.EdgeNodeIP = "" then d.Modules.Edged.NodeIP else ku.EdgeNodeIP
            RuntimeType :=
              if ku.RuntimeType = "" then d.Modules.Edged.RuntimeType else ku.RuntimeType
            CGroupDriver :=
              if ku.CGroupDriver = "" then d.Modules.Edged.CGroupDriver else ku.CGroupDriver
            RemoteRuntimeEndpoint :=
              if ku.RemoteRuntimeEndpoint = "" then d.Modules.Edged.RemoteRuntimeEndpoint
              else ku.RemoteRuntimeEndpoint
            RemoteImageEndpoint :=
              if ku.RemoteRuntimeEndpoint = "" then d.Modules.Edged.RemoteImageEndpoint
              else ku.RemoteRuntimeEndpoint
            rest := d.Modules.Edged.rest }
        EdgeStream :=
          { TunnelServer :=
              if ku.TunnelPort = "" then splitHost ku.CloudCoreIP ++ ":10004"
              else splitHost ku.CloudCoreIP ++ ":" ++ ku.TunnelPort
            Enable := true
            rest := d.Modules.EdgeStream.rest }
        rest := d.Modules.rest }
    rest := d.rest }

/-- The legacy primary document in the words of the specification, for the node
identifier `edgeID`. -/
def legacyDoc (k : Consts) (ku : KubeEdgeInstTool) (edgeID : String) : EdgeYamlSt :=
  { EdgeHub := { WebSocket := { URL :=
      "wss://" ++ (if "" = ku.CloudCoreIP then "0.0.0.0" else ku.CloudCoreIP) ++ ":10000/" ++
        k.DefaultProjectID ++ "/" ++ (if "" = ku.EdgeNodeName then edgeID else ku.EdgeNodeName) ++
        "/events" } }
    EdgeD := { RuntimeType := ku.RuntimeType } }

/-- The override copy at the end of `createEdgeConfigFiles`, which never fails
the call. -/
def copyStep (ext : Ext σ ρ) (ku : KubeEdgeInstTool) (w : World σ ρ) :
    Option GoError × World σ ρ :=
  if "" = ku.ConfigPath then (none, w)
  else (none, (CopyFile ext ku.ConfigPath "/etc/kubeedge/config/edgecore.yaml" w).2)

/-- The modern branch of `createEdgeConfigFiles`, step by step. -/
def modernRun (k : Consts) (ext : Ext σ ρ) (ku : KubeEdgeInstTool) (w : World σ ρ) :
    Option GoError × World σ ρ :=
  let r1 := MkdirAll ext k.KubeEdgeNewConfigDir ModePerm w
  if r1.1 = none then
    if validCGroupDriver ku then
      let r2 := Write2File ext k.KubeEdgeEdgeCoreNewYaml
        (modernDoc k ext.NewDefaultEdgeCoreConfig ku) r1.2
      if r2.1 = none then copyStep ext ku r2.2 else r2
    else (some ("unsupported CGroupDriver: " ++ ku.CGroupDriver), r1.2)
  else (some ("not able to create " ++ k.KubeEdgeNewConfigDir ++ " folder path"), r1.2)

/-- The legacy branch of `createEdgeConfigFiles`, step by step. -/
def legacyRun (k : Consts) (ext : Ext σ ρ) (ku : KubeEdgeInstTool) (w : World σ ρ) :
    Option GoError × World σ ρ :=
  let r1 := MkdirAll ext k.KubeEdgeConfPath ModePerm w
  if r1.1 = none then
    let r2 := uuidNew ext r1.2
    let r3 := WriteEdgeYamlFile ext k.KubeEdgeConfigEdgeYaml (legacyDoc k ku r2.1) r2.2
    if r3.1 = none then
      let r4 := WriteEdgeModulesYamlFile ext k.KubeEdgeConfigModulesYaml r3.2
      if r4.1 = none then copyStep ext ku r4.2 else r4
    else r3
  else (some ("not able to create " ++ k.KubeEdgeConfPath ++ " folder path"), r1.2)

/-- The operations of the override copy when it starts in system state `s`:
none without a `ConfigPath`, else the shell copy and, when that fails, two
prints. -/
def copyCalls (ext : Ext σ ρ) (ku : KubeEdgeInstTool) (s : σ) : List (Call ρ) :=
  if "" = ku.ConfigPath then []
  else
    Call.shOutput ("cp -r " ++ ku.ConfigPath ++ " " ++ "/etc/kubeedge/config/edgecore.yaml") ::
      (match (ext.shOutput
          ("cp -r " ++ ku.ConfigPath ++ " " ++ "/etc/kubeedge/config/edgecore.yaml") s).1.2 with
        | some e =>
          [Call.Printf ("fail to copy file:  " ++
              ("cp -r " ++ ku.ConfigPath ++ " " ++ "/etc/kubeedge/config/edgecore.yaml")),
            Call.Printf ("Output: " ++ e ++ "\n")]
        | none => [])

/-- The URL-resolution step of `InstallTools` in the words of the
specification: the region `"en"` wins, else a custom download source, else the
current templates stay. -/
def urlsResolved (ku : KubeEdgeInstTool) (w : World σ ρ) : World σ ρ :=
  if ku.Region = "en" then
    { w with
      KubeEdgeDownloadURL := "https://github.com/kubeedge/kubeedge/releases/download"
      ServiceFileURLFormat :=
        "https://raw.githubusercontent.com/kubeedge/kubeedge/release-%s/build/tools/%s" }
  else if ku.DownloadURL = "" then w
  else
    { w with
      KubeEdgeDownloadURL := ku.DownloadURL ++ "/releases/download"
      ServiceFileURLFormat := ku.DownloadURL ++ "/releases/service/%s/%s" }

/-- The run of `InstallTools` after a running-process check that answered
"not running": version hand-over and URL resolution, then the three steps. -/
def installRun (k : Consts) (ext : Ext σ ρ) (ku : KubeEdgeInstTool) (w : World σ ρ) :
    Option GoError × World σ ρ :=
  let r1 := InstallKubeEdge ext { TarballPath := ku.TarballPath, ComponentType := .EdgeCore }
    (urlsResolved ku (SetKubeEdgeVersion ext ku.ToolVersion w).2)
  if r1.1 = none then
    let r2 := createEdgeConfigFiles k ext ku r1.2
    if r2.1 = none then RunEdgeCore ext r2.2 else r2
  else r1

end Observations

/-! ## A concrete system, for evaluating the programs -/

/-- A system whose state counts the operations performed.  `running` is the
answer of the process check; `mkdirErr`, `writeErr` and `stepErr` are the results
of directory creation, of the document writes and of install/run/kill; the shell
copy always fails with `exit status 1`. -/
def demoExt (running : Bool) (mkdirErr writeErr stepErr : Option GoError) : Ext Nat Unit where
  SetOSInterface := fun s => s + 1
  IsKubeEdgeProcessRunning := fun _ s => ((running, none), s + 1)
  SetKubeEdgeVersion := fun _ s => s + 1
  InstallKubeEdge := fun _ _ _ s => (stepErr, s + 1)
  RunEdgeCore := fun s => (stepErr, s + 1)
  KillKubeEdgeBinary := fun _ s => (stepErr, s + 1)
  MkdirAll := fun _ _ s => (mkdirErr, s + 1)
  NewDefaultEdgeCoreConfig :=
    { Modules :=
        { EdgeHub :=
            { WebSocket := { Server := "127.0.0.1:10000", rest := () }
              Quic := { Server := "127.0.0.1:10001", rest := () }
              HTTPServer := "https://127.0.0.1:10002"
              Token := ""
              TLSPrivateKeyFile := "/etc/kubeedge/certs/server.key"
              TLSCertFile := "/etc/kubeedge/certs/server.crt"
              rest := () }
          Edged :=
            { HostnameOverride := "localhost"
              NodeIP := "127.0.0.1"
              RuntimeType := "docker"
              CGroupDriver := "cgroupfs"
              RemoteRuntimeEndpoint := "unix:///var/run/dockershim.sock"
              RemoteImageEndpoint := "unix:///var/run/dockershim.sock"
              rest := () }
          EdgeStream := { TunnelServer := "127.0.0.1:10004", Enable := false, rest := () }
          rest := () }
      rest := () }
  Write2File := fun _ _ s => (writeErr, s + 1)
  uuidNew := fun s => ("uuid-" ++ String.mk (List.replicate s 'x'), s + 1)
  WriteEdgeYamlFile := fun _ _ s => (writeErr, s + 1)
  WriteEdgeModulesYamlFile := fun _ s => (writeErr, s + 1)
  shOutput := fun _ s => (("", some "exit status 1"), s + 1)
  Printf := fun _ s => s + 1

/-- Sample values for the package-level constants. -/
def demoConsts : Consts where
  KubeEdgeBinaryName := "edgecore"
  KubeEdgeNewConfigDir := "/etc/kubeedge/config/"
  KubeEdgeEdgeCoreNewYaml := "/etc/kubeedge/config/edgecore.yaml"
  KubeEdgeConfPath := "/etc/kubeedge/edge/conf"
  KubeEdgeConfigEdgeYaml := "/etc/kubeedge/edge/conf/edge.yaml"
  KubeEdgeConfigModulesYaml := "/etc/kubeedge/edge/conf/modules.yaml"
  KubeEdgeCloudDefaultCertPath := "/etc/kubeedge/ca/"
  DefaultProjectID := "e632aba927ea4ac2b575ec1603d56f10"

/-- An installer for version `v` and cloud endpoint `ip` with every optional
field left empty. -/
def demoTool (v : Version) (ip : String) : KubeEdgeInstTool where
  ToolVersion := v
  CertPath := ""
  CloudCoreIP := ip
  EdgeNodeName := ""
  EdgeNodeIP := ""
  Region := ""
  ConfigPath := ""
  RuntimeType := ""
  RemoteRuntimeEndpoint := ""
  Token := ""
  CertPort := ""
  QuicPort := ""
  TunnelPort := ""
  CGroupDriver := ""
  TarballPath := ""
  DownloadURL := ""

/-- A starting state: nothing done yet, sample built-in URL templates. -/
def demoWorld : World Nat Unit where
  sys := 0
  KubeEdgeDownloadURL := "https://default.example/download"
  ServiceFileURLFormat := "https://default.example/service/%s/%s"
  calls := []

/-! ## Basic facts -/

section Basic

variable {σ ρ S α β : Type}

@[simp] theorem Prog.pure_apply (a : α) (s : S) : (pure a : Prog S α) s = (a, s) := rfl

@[simp] theorem Prog.bind_apply (x : Prog S α) (f : α → Prog S β) (s : S) :
    (x >>= f) s = f (x s).1 (x s).2 := rfl

@[simp] theorem Prog.ite_apply (c : Prop) [Decidable c] (x y : Prog S α) (s : S) :
    (if c then x else y) s = if c then x s else y s := by
  split <;> rfl

/-- Joining two strings with the empty separator concatenates them. -/
theorem stringsJoin_pair (a b : String) : stringsJoin [a, b] "" = a ++ b := by
  simp [stringsJoin, String.intercalate, String.intercalate.go]

/-- A conditional between two `EdgeHubWebSocket` values, field by field. -/
theorem ite_eta_EdgeHubWebSocket {ρ : Type} (c : Prop) [Decidable c] (a b : EdgeHubWebSocket ρ) :
    (if c then a else b) =
      ⟨if c then a.Server else b.Server, if c then a.rest else b.rest⟩ := by
  split <;> rfl

/-- A conditional between two `EdgeHubQUIC` values, field by field. -/
theorem ite_eta_EdgeHubQUIC {ρ : Type} (c : Prop) [Decidable c] (a b : EdgeHubQUIC ρ) :
    (if c then a else b) =
      ⟨if c then a.Server else b.Server, if c then a.rest else b.rest⟩ := by
  split <;> rfl

/-- A conditional between two `EdgeHub` values, field by field. -/
theorem ite_eta_EdgeHub {ρ : Type} (c : Prop) [Decidable c] (a b : EdgeHub ρ) :
    (if c then a else b) =
      ⟨if c then a.WebSocket else b.WebSocket, if c then a.Quic else b.Quic, if c then a.HTTPServer else b.HTTPServer, if c then a.Token else b.Token, if c then a.TLSPrivateKeyFile else b.TLSPrivateKeyFile, if c then a.TLSCertFile else b.TLSCertFile, if c then a.rest else b.rest⟩ := by
  split <;> rfl

/-- A conditional between two `Edged` values, field by field. -/
theorem ite_eta_Edged {ρ : Type} (c : Prop) [Decidable c] (a b : Edged ρ) :
    (if c then a else b) =
      ⟨if c then a.HostnameOverride else b.HostnameOverride, if c then a.NodeIP else b.NodeIP, if c then a.RuntimeType else b.RuntimeType, if c then a.CGroupDriver else b.CGroupDriver, if c then a.RemoteRuntimeEndpoint else b.RemoteRuntimeEndpoint, if c then a.RemoteImageEndpoint else b.RemoteImageEndpoint, if c then a.rest else b.rest⟩ := by
  split <;> rfl

/-- A conditional between two `EdgeStream` values, field by field. -/
theorem ite_eta_EdgeStream {ρ : Type} (c : Prop) [Decidable c] (a b : EdgeStream ρ) :
    (if c then a else b) =
      ⟨if c then a.TunnelServer else b.TunnelServer, if c then a.Enable else b.Enable, if c then a.rest else b.rest⟩ := by
  split <;> rfl

/-- A conditional between two `Modules` values, field by field. -/
theorem ite_eta_Modules {ρ : Type} (c : Prop) [Decidable c] (a b : Modules ρ) :
    (if c then a else b) =
      ⟨if c then a.EdgeHub else b.EdgeHub, if c then a.Edged else b.Edged, if c then a.EdgeStream else b.EdgeStream, if c then a.rest else b.rest⟩ := by
  split <;> rfl

/-- A conditional between two `EdgeCoreConfig` values, field by field. -/
theorem ite_eta_EdgeCoreConfig {ρ : Type} (c : Prop) [Decidable c] (a b : EdgeCoreConfig ρ) :
    (if c then a else b) =
      ⟨if c then a.Modules else b.Modules, if c then a.rest else b.rest⟩ := by
  split <;> rfl

/-- On the modern branch `createEdgeConfigFiles` is `modernRun`. -/
theorem createEdgeConfigFiles_modern (k : Consts) (ext : Ext σ ρ) (ku : KubeEdgeInstTool)
    (w : World σ ρ) (h : ku.ToolVersion.GE v1_2_0 = true) :
    createEdgeConfigFiles k ext ku w = modernRun k ext ku w := by
  unfold createEdgeConfigFiles modernRun
  by_cases hm : (MkdirAll ext k.KubeEdgeNewConfigDir ModePerm w).1 = none
  swap
  · simp [h, hm]
  by_cases hv : validCGroupDriver ku
  swap
  · have hv2 := hv
    simp only [validCGroupDriver, not_or] at hv2
    simp [h, hm, hv, hv2]
  rcases hv with h0 | h0 | h0 <;>
    simp [h, hm, h0, validCGroupDriver, modernDoc, stringsJoin_pair, copyStep,
      CGroupDriverSystemd, CGroupDriverCGroupFS,
      ite_eta_EdgeHubWebSocket, ite_eta_EdgeHubQUIC, ite_eta_EdgeHub, ite_eta_Edged,
      ite_eta_EdgeStream, ite_eta_Modules, ite_eta_EdgeCoreConfig]

/-- On the legacy branch `createEdgeConfigFiles` is `legacyRun`. -/
theorem createEdgeConfigFiles_legacy (k : Consts) (ext : Ext σ ρ) (ku : KubeEdgeInstTool)
    (w : World σ ρ) (h : ku.ToolVersion.GE v1_2_0 = false) :
    createEdgeConfigFiles k ext ku w = legacyRun k ext ku w := by
  unfold createEdgeConfigFiles legacyRun
  by_cases hm : (MkdirAll ext k.KubeEdgeConfPath ModePerm w).1 = none
  · simp [h, hm, legacyDoc, copyStep]
  · simp [h, hm]

/-- What `call` returns and how it changes the state. -/
theorem call_apply (c : Call ρ) (f : σ → α × σ) (w : World σ ρ) :
    call c f w = ((f w.sys).1, { w with sys := (f w.sys).2, calls := w.calls ++ [c] }) := rfl

/-- The operations recorded by `CopyFile`: the shell command, and two prints
when it fails. -/
theorem CopyFile_calls (ext : Ext σ ρ) (src dst : String) (w : World σ ρ) :
    (CopyFile ext src dst w).2.calls =
      w.calls ++ Call.shOutput ("cp -r " ++ src ++ " " ++ dst) ::
        (match (ext.shOutput ("cp -r " ++ src ++ " " ++ dst) w.sys).1.2 with
          | some e =>
            [Call.Printf ("fail to copy file:  " ++ ("cp -r " ++ src ++ " " ++ dst)),
              Call.Printf ("Output: " ++ e ++ "\n")]
          | none => []) := by
  unfold CopyFile
  simp only [Prog.bind_apply, shOutput, Printf, call_apply]
  cases hsh : (ext.shOutput ("cp -r " ++ src ++ " " ++ dst) w.sys).1.2 <;> simp [hsh, call_apply]

/-- `CopyFile` leaves the two URL templates alone. -/
theorem CopyFile_urls (ext : Ext σ ρ) (src dst : String) (w : World σ ρ) :
    (CopyFile ext src dst w).2.KubeEdgeDownloadURL = w.KubeEdgeDownloadURL ∧
      (CopyFile ext src dst w).2.ServiceFileURLFormat = w.ServiceFileURLFormat := by
  unfold CopyFile
  simp only [Prog.bind_apply, shOutput, Printf, call_apply]
  cases hsh : (ext.shOutput ("cp -r " ++ src ++ " " ++ dst) w.sys).1.2 <;> simp [hsh, call_apply]

/-- The service-file template built by `fmt.Sprintf` from a custom download
source. -/
theorem serviceFormat_eq (u : String) :
    u ++ "/releases/service/" ++ "%s" ++ "/" ++ "%s" = u ++ "/releases/service/%s/%s" := by
  simp only [String.append_assoc]
  congr 1

/-- `InstallTools` is the check followed by `installRun`. -/
theorem InstallTools_eq (k : Consts) (ext : Ext σ ρ) (ku : KubeEdgeInstTool) (w : World σ ρ) :
    InstallTools k ext ku w =
      (let r0 := IsKubeEdgeProcessRunning ext k.KubeEdgeBinaryName (SetOSInterface ext w).2
       if r0.1.2 = none then
         if r0.1.1 = true then
           (some "EdgeCore is already running on this node, please run reset to clean up first",
             r0.2)
         else installRun k ext ku r0.2
       else (r0.1.2, r0.2)) := by
  unfold InstallTools installRun urlsResolved
  simp only [Prog.bind_apply]
  cases hr : (IsKubeEdgeProcessRunning ext k.KubeEdgeBinaryName (SetOSInterface ext w).2).1 with
  | mk running err =>
    cases err with
    | some e => simp [hr]
    | none =>
      cases running with
      | true => simp [hr]
      | false =>
        by_cases hreg : ku.Region = "en" <;> by_cases hd : ku.DownloadURL = "" <;>
          simp only [hr, hreg, hd, setKubeEdgeDownloadURL, setServiceFileURLFormat,
            serviceFormat_eq, Prog.bind_apply, Prog.pure_apply, Prog.ite_apply, ne_eq,
            not_true_eq_false, not_false_eq_true, if_true, if_false, Bool.false_eq_true] <;>
          split_ifs with h1 h2 h3 <;> first | rfl | exact Prod.ext h3.symm rfl

/-- The first piece found by the scanning loop for the separator `":"`. -/
theorem splitLoop_colon_head (l cur : List Char) :
    (splitLoop [':'] l cur 0).head? = some (cur.reverse ++ l.takeWhile (fun c => c ≠ ':')) := by
  induction l generalizing cur with
  | nil => simp [splitLoop]
  | cons c rest ih =>
    unfold splitLoop
    by_cases hc : c = ':'
    · simp [hc, List.isPrefixOf]
    · have hc2 : ¬ (':' = c) := fun e => hc e.symm
      simp [hc, hc2, List.isPrefixOf, ih]

/-- The host taken by `strings.Split(ip, ":")[0]` is the prefix of `ip` before
its first `':'`. -/
theorem splitHost_eq_hostPrefix (ip : String) : splitHost ip = hostPrefix ip := by
  have h := splitLoop_colon_head ip.data []
  have hs : stringsSplit ip ":" = (splitLoop [':'] ip.data [] 0).map String.mk := by
    simp [stringsSplit]
  unfold splitHost hostPrefix
  have h2 : (stringsSplit ip ":").head? =
      some (String.mk (ip.data.takeWhile (fun c => c ≠ ':'))) := by
    rw [hs, List.head?_map, h]; simp
  rw [List.head?_eq_head (stringsSplit_ne_nil ip ":" (by decide))] at h2
  exact Option.some.inj h2

/-- The operations of a run are what it appended to the record. -/
theorem callsOf_eq {p : Prog (World σ ρ) α} {w : World σ ρ} {cs : List (Call ρ)}
    (h : (p w).2.calls = w.calls ++ cs) : callsOf p w = cs := by
  simp [callsOf, h]

/-- The operations of the override copy. -/
theorem copyStep_calls (ext : Ext σ ρ) (ku : KubeEdgeInstTool) (w : World σ ρ) :
    (copyStep ext ku w).2.calls = w.calls ++ copyCalls ext ku w.sys := by
  unfold copyStep copyCalls
  split
  · simp
  · simp [CopyFile_calls]

/-- The operations of `createEdgeConfigFiles` on the modern branch. -/
theorem createEdgeConfigFiles_modern_calls (k : Consts) (ext : Ext σ ρ) (ku : KubeEdgeInstTool)
    (w : World σ ρ) (h : ku.ToolVersion.GE v1_2_0 = true) :
    (createEdgeConfigFiles k ext ku w).2.calls = w.calls ++
      Call.MkdirAll k.KubeEdgeNewConfigDir ModePerm ::
        (if (ext.MkdirAll k.KubeEdgeNewConfigDir ModePerm w.sys).1 = none ∧ validCGroupDriver ku
          then
            Call.Write2File k.KubeEdgeEdgeCoreNewYaml (modernDoc k ext.NewDefaultEdgeCoreConfig ku) ::
              (if (ext.Write2File k.KubeEdgeEdgeCoreNewYaml
                    (modernDoc k ext.NewDefaultEdgeCoreConfig ku)
                    (ext.MkdirAll k.KubeEdgeNewConfigDir ModePerm w.sys).2).1 = none
                then copyCalls ext ku
                  (ext.Write2File k.KubeEdgeEdgeCoreNewYaml
                    (modernDoc k ext.NewDefaultEdgeCoreConfig ku)
                    (ext.MkdirAll k.KubeEdgeNewConfigDir ModePerm w.sys).2).2
                else [])
          else []) := by
  rw [createEdgeConfigFiles_modern k ext ku w h]
  unfold modernRun
  simp only [MkdirAll, Write2File, call_apply]
  by_cases hm : (ext.MkdirAll k.KubeEdgeNewConfigDir ModePerm w.sys).1 = none
  · by_cases hv : validCGroupDriver ku
    · by_cases hw : (ext.Write2File k.KubeEdgeEdgeCoreNewYaml
          (modernDoc k ext.NewDefaultEdgeCoreConfig ku)
          (ext.MkdirAll k.KubeEdgeNewConfigDir ModePerm w.sys).2).1 = none
      · simp [hm, hv, hw, copyStep_calls]
      · simp [hm, hv, hw]
    · simp [hm, hv]
  · simp [hm]

/-- The operations of `createEdgeConfigFiles` on the legacy branch. -/
theorem createEdgeConfigFiles_legacy_calls (k : Consts) (ext : Ext σ ρ) (ku : KubeEdgeInstTool)
    (w : World σ ρ) (h : ku.ToolVersion.GE v1_2_0 = false) :
    (createEdgeConfigFiles k ext ku w).2.calls = w.calls ++
      Call.MkdirAll k.KubeEdgeConfPath ModePerm ::
        (if (ext.MkdirAll k.KubeEdgeConfPath ModePerm w.sys).1 = none then
          Call.uuidNew ::
            Call.WriteEdgeYamlFile k.KubeEdgeConfigEdgeYaml
              (legacyDoc k ku (ext.uuidNew (ext.MkdirAll k.KubeEdgeConfPath ModePerm w.sys).2).1) ::
            (if (ext.WriteEdgeYamlFile k.KubeEdgeConfigEdgeYaml
                  (legacyDoc k ku
                    (ext.uuidNew (ext.MkdirAll k.KubeEdgeConfPath ModePerm w.sys).2).1)
                  (ext.uuidNew (ext.MkdirAll k.KubeEdgeConfPath ModePerm w.sys).2).2).1 = none
              then
                Call.WriteEdgeModulesYamlFile k.KubeEdgeConfigModulesYaml ::
                  (if (ext.WriteEdgeModulesYamlFile k.KubeEdgeConfigModulesYaml
                        (ext.WriteEdgeYamlFile k.KubeEdgeConfigEdgeYaml
                          (legacyDoc k ku
                            (ext.uuidNew (ext.MkdirAll k.KubeEdgeConfPath ModePerm w.sys).2).1)
                          (ext.uuidNew
                            (ext.MkdirAll k.KubeEdgeConfPath ModePerm w.sys).2).2).2).1 = none
                    then copyCalls ext ku
                      (ext.WriteEdgeModulesYamlFile k.KubeEdgeConfigModulesYaml
                        (ext.WriteEdgeYamlFile k.KubeEdgeConfigEdgeYaml
                          (legacyDoc k ku
                            (ext.uuidNew (ext.MkdirAll k.KubeEdgeConfPath ModePerm w.sys).2).1)
                          (ext.uuidNew
                            (ext.MkdirAll k.KubeEdgeConfPath ModePerm w.sys).2).2).2).2
                    else [])
              else [])
          else []) := by
  rw [createEdgeConfigFiles_legacy k ext ku w h]
  unfold legacyRun
  simp only [MkdirAll, uuidNew, WriteEdgeYamlFile, WriteEdgeModulesYamlFile, call_apply]
  split_ifs <;> simp_all [copyStep_calls]

/-- Documents among appended operations. -/
theorem writtenDocs_append (a b : List (Call ρ)) :
    writtenDocs (a ++ b) = writtenDocs a ++ writtenDocs b := by
  induction a with
  | nil => rfl
  | cons c cs ih => cases c <;> simp [writtenDocs, ih]

/-- The override copy writes no modern document through `Write2File`. -/
theorem writtenDocs_copyCalls (ext : Ext σ ρ) (ku : KubeEdgeInstTool) (s : σ) :
    writtenDocs (copyCalls ext ku s) = [] := by
  unfold copyCalls
  split
  · rfl
  · split <;> rfl

/-- The override copy writes no legacy document through `WriteEdgeYamlFile`. -/
theorem writtenEdgeYamls_copyCalls (ext : Ext σ ρ) (ku : KubeEdgeInstTool) (s : σ) :
    writtenEdgeYamls (copyCalls ext ku s) = [] := by
  unfold copyCalls
  split
  · rfl
  · split <;> rfl

/-- The modern documents written by `createEdgeConfigFiles` on the modern
branch: the overlaid default document, once directory creation succeeded and the
cgroup driver was accepted. -/
theorem writtenDocs_modern (k : Consts) (ext : Ext σ ρ) (ku : KubeEdgeInstTool)
    (w : World σ ρ) (h : ku.ToolVersion.GE v1_2_0 = true) :
    writtenDocs (callsOf (createEdgeConfigFiles k ext ku) w) =
      if (ext.MkdirAll k.KubeEdgeNewConfigDir ModePerm w.sys).1 = none ∧ validCGroupDriver ku
      then [(k.KubeEdgeEdgeCoreNewYaml, modernDoc k ext.NewDefaultEdgeCoreConfig ku)]
      else [] := by
  rw [callsOf_eq (createEdgeConfigFiles_modern_calls k ext ku w h)]
  split_ifs <;> simp [writtenDocs, writtenDocs_copyCalls]

/-- The legacy primary documents written by `createEdgeConfigFiles` on the
legacy branch. -/
theorem writtenEdgeYamls_legacy (k : Consts) (ext : Ext σ ρ) (ku : KubeEdgeInstTool)
    (w : World σ ρ) (h : ku.ToolVersion.GE v1_2_0 = false) :
    writtenEdgeYamls (callsOf (createEdgeConfigFiles k ext ku) w) =
      if (ext.MkdirAll k.KubeEdgeConfPath ModePerm w.sys).1 = none then
        [(k.KubeEdgeConfigEdgeYaml,
          legacyDoc k ku (ext.uuidNew (ext.MkdirAll k.KubeEdgeConfPath ModePerm w.sys).2).1)]
      else [] := by
  rw [callsOf_eq (createEdgeConfigFiles_legacy_calls k ext ku w h)]
  split_ifs <;> simp [writtenEdgeYamls, writtenEdgeYamls_copyCalls]

/-- The override copy contains none of the three install steps' operations. -/
theorem copyCalls_count (ext : Ext σ ρ) (ku : KubeEdgeInstTool) (s : σ) :
    (copyCalls ext ku s).countP Call.isInstallKubeEdge = 0 ∧
      (copyCalls ext ku s).countP Call.isRunEdgeCore = 0 ∧
      (copyCalls ext ku s).countP Call.isMkdirAll = 0 := by
  unfold copyCalls
  split
  · simp
  · split <;> simp [Call.isInstallKubeEdge, Call.isRunEdgeCore, Call.isMkdirAll]

/-- The record after `createEdgeConfigFiles` extends the record before it. -/
theorem createEdgeConfigFiles_calls (k : Consts) (ext : Ext σ ρ) (ku : KubeEdgeInstTool)
    (w : World σ ρ) :
    (createEdgeConfigFiles k ext ku w).2.calls =
      w.calls ++ callsOf (createEdgeConfigFiles k ext ku) w := by
  cases h : ku.ToolVersion.GE v1_2_0 with
  | true =>
    rw [callsOf_eq (createEdgeConfigFiles_modern_calls k ext ku w h)]
    exact createEdgeConfigFiles_modern_calls k ext ku w h
  | false =>
    rw [callsOf_eq (createEdgeConfigFiles_legacy_calls k ext ku w h)]
    exact createEdgeConfigFiles_legacy_calls k ext ku w h

/-- A run of `createEdgeConfigFiles` creates a directory exactly once and
reaches neither `InstallKubeEdge` nor `RunEdgeCore`. -/
theorem createEdgeConfigFiles_count (k : Consts) (ext : Ext σ ρ) (ku : KubeEdgeInstTool)
    (w : World σ ρ) :
    (callsOf (createEdgeConfigFiles k ext ku) w).countP Call.isInstallKubeEdge = 0 ∧
      (callsOf (createEdgeConfigFiles k ext ku) w).countP Call.isRunEdgeCore = 0 ∧
      (callsOf (createEdgeConfigFiles k ext ku) w).countP Call.isMkdirAll = 1 := by
  cases h : ku.ToolVersion.GE v1_2_0 with
  | true =>
    rw [callsOf_eq (createEdgeConfigFiles_modern_calls k ext ku w h)]
    split_ifs <;>
      simp [List.countP_cons, copyCalls_count, Call.isInstallKubeEdge, Call.isRunEdgeCore,
        Call.isMkdirAll]
  | false =>
    rw [callsOf_eq (createEdgeConfigFiles_legacy_calls k ext ku w h)]
    split_ifs <;>
      simp [List.countP_cons, copyCalls_count, Call.isInstallKubeEdge, Call.isRunEdgeCore,
        Call.isMkdirAll]

/-- `createEdgeConfigFiles` leaves the two URL templates alone. -/
theorem createEdgeConfigFiles_urls (k : Consts) (ext : Ext σ ρ) (ku : KubeEdgeInstTool)
    (w : World σ ρ) :
    (createEdgeConfigFiles k ext ku w).2.KubeEdgeDownloadURL = w.KubeEdgeDownloadURL ∧
      (createEdgeConfigFiles k ext ku w).2.ServiceFileURLFormat = w.ServiceFileURLFormat := by
  have hc : ∀ w0 : World σ ρ,
      (copyStep ext ku w0).2.KubeEdgeDownloadURL = w0.KubeEdgeDownloadURL ∧
        (copyStep ext ku w0).2.ServiceFileURLFormat = w0.ServiceFileURLFormat := by
    intro w0
    unfold copyStep
    split
    · exact ⟨rfl, rfl⟩
    · exact CopyFile_urls ext _ _ w0
  cases h : ku.ToolVersion.GE v1_2_0 with
  | true =>
    rw [createEdgeConfigFiles_modern k ext ku w h]
    unfold modernRun
    simp only [MkdirAll, Write2File, call_apply]
    split_ifs <;> simp [hc]
  | false =>
    rw [createEdgeConfigFiles_legacy k ext ku w h]
    unfold legacyRun
    simp only [MkdirAll, uuidNew, WriteEdgeYamlFile, WriteEdgeModulesYamlFile, call_apply]
    split_ifs <;> simp [hc]

/-- After a check that answered `(false, nil)`, `InstallTools` continues with
`installRun` from the state the check left. -/
theorem InstallTools_not_running (k : Consts) (ext : Ext σ ρ) (ku : KubeEdgeInstTool)
    (w : World σ ρ)
    (h : (ext.IsKubeEdgeProcessRunning k.KubeEdgeBinaryName (ext.SetOSInterface w.sys)).1 =
      (false, none)) :
    InstallTools k ext ku w =
      installRun k ext ku
        { sys :=
            (ext.IsKubeEdgeProcessRunning k.KubeEdgeBinaryName (ext.SetOSInterface w.sys)).2
          KubeEdgeDownloadURL := w.KubeEdgeDownloadURL
          ServiceFileURLFormat := w.ServiceFileURLFormat
          calls := w.calls ++
            [Call.SetOSInterface, Call.IsKubeEdgeProcessRunning k.KubeEdgeBinaryName] } := by
  rw [InstallTools_eq]
  simp [IsKubeEdgeProcessRunning, SetOSInterface, call_apply, h]

/-- The state in which `installRun` reaches `InstallKubeEdge`. -/
theorem urlsResolved_setVersion (ext : Ext σ ρ) (ku : KubeEdgeInstTool) (w : World σ ρ) :
    urlsResolved ku (SetKubeEdgeVersion ext ku.ToolVersion w).2 =
      { sys := ext.SetKubeEdgeVersion ku.ToolVersion w.sys
        KubeEdgeDownloadURL := (urlsResolved ku w).KubeEdgeDownloadURL
        ServiceFileURLFormat := (urlsResolved ku w).ServiceFileURLFormat
        calls := w.calls ++ [Call.SetKubeEdgeVersion ku.ToolVersion] } := by
  unfold urlsResolved
  simp only [SetKubeEdgeVersion, call_apply]
  split_ifs <;> rfl

/-- The operations and the URL templates of `installRun`. -/
theorem installRun_obs (k : Consts) (ext : Ext σ ρ) (ku : KubeEdgeInstTool) (w : World σ ρ) :
    (installRun k ext ku w).2.KubeEdgeDownloadURL = (urlsResolved ku w).KubeEdgeDownloadURL ∧
      (installRun k ext ku w).2.ServiceFileURLFormat = (urlsResolved ku w).ServiceFileURLFormat ∧
      (installRun k ext ku w).2.calls =
        w.calls ++
          Call.SetKubeEdgeVersion ku.ToolVersion ::
          Call.InstallKubeEdge { TarballPath := ku.TarballPath, ComponentType := .EdgeCore }
            (urlsResolved ku w).KubeEdgeDownloadURL (urlsResolved ku w).ServiceFileURLFormat ::
          (if (InstallKubeEdge ext { TarballPath := ku.TarballPath, ComponentType := .EdgeCore }
                (urlsResolved ku (SetKubeEdgeVersion ext ku.ToolVersion w).2)).1 = none then
            callsOf (createEdgeConfigFiles k ext ku)
                (InstallKubeEdge ext { TarballPath := ku.TarballPath, ComponentType := .EdgeCore }
                  (urlsResolved ku (SetKubeEdgeVersion ext ku.ToolVersion w).2)).2 ++
              (if (createEdgeConfigFiles k ext ku
                    (InstallKubeEdge ext
                      { TarballPath := ku.TarballPath, ComponentType := .EdgeCore }
                      (urlsResolved ku (SetKubeEdgeVersion ext ku.ToolVersion w).2)).2).1 = none
                then [Call.RunEdgeCore] else [])
          else []) := by
  unfold installRun
  have e := urlsResolved_setVersion ext ku w
  have hdl : (urlsResolved ku (SetKubeEdgeVersion ext ku.ToolVersion w).2).KubeEdgeDownloadURL =
      (urlsResolved ku w).KubeEdgeDownloadURL := by rw [e]
  have hsf : (urlsResolved ku (SetKubeEdgeVersion ext ku.ToolVersion w).2).ServiceFileURLFormat =
      (urlsResolved ku w).ServiceFileURLFormat := by rw [e]
  have hcs : (urlsResolved ku (SetKubeEdgeVersion ext ku.ToolVersion w).2).calls =
      w.calls ++ [Call.SetKubeEdgeVersion ku.ToolVersion] := by rw [e]
  generalize urlsResolved ku (SetKubeEdgeVersion ext ku.ToolVersion w).2 = w2 at hdl hsf hcs ⊢
  have hI1 : ∀ w0 : World σ ρ,
      (InstallKubeEdge ext { TarballPath := ku.TarballPath, ComponentType := .EdgeCore }
        w0).2.KubeEdgeDownloadURL = w0.KubeEdgeDownloadURL := fun _ => rfl
  have hI2 : ∀ w0 : World σ ρ,
      (InstallKubeEdge ext { TarballPath := ku.TarballPath, ComponentType := .EdgeCore }
        w0).2.ServiceFileURLFormat = w0.ServiceFileURLFormat := fun _ => rfl
  have hI3 : ∀ w0 : World σ ρ,
      (InstallKubeEdge ext { TarballPath := ku.TarballPath, ComponentType := .EdgeCore }
        w0).2.calls = w0.calls ++ [Call.InstallKubeEdge
          { TarballPath := ku.TarballPath, ComponentType := .EdgeCore }
          w0.KubeEdgeDownloadURL w0.ServiceFileURLFormat] := fun _ => rfl
  have hR1 : ∀ w0 : World σ ρ,
      (RunEdgeCore ext w0).2.KubeEdgeDownloadURL = w0.KubeEdgeDownloadURL := fun _ => rfl
  have hR2 : ∀ w0 : World σ ρ,
      (RunEdgeCore ext w0).2.ServiceFileURLFormat = w0.ServiceFileURLFormat := fun _ => rfl
  have hR3 : ∀ w0 : World σ ρ,
      (RunEdgeCore ext w0).2.calls = w0.calls ++ [Call.RunEdgeCore] := fun _ => rfl
  have hU1 := fun w0 => (createEdgeConfigFiles_urls k ext ku w0).1
  have hU2 := fun w0 => (createEdgeConfigFiles_urls k ext ku w0).2
  have hC := createEdgeConfigFiles_calls k ext ku
  dsimp only
  split_ifs with h1 h2 <;>
    simp only [hR1, hR2, hR3, hU1, hU2, hC, hI1, hI2, hI3, hdl, hsf, hcs, List.append_assoc,
      List.singleton_append, List.cons_append, List.nil_append, List.append_nil, and_self]

/-- The default certificate port appended to the separator. -/
theorem default_port_10002 : (":" ++ "10002" : String) = ":10002" := by decide

/-- The default QUIC port appended to the separator. -/
theorem default_port_10001 : (":" ++ "10001" : String) = ":10001" := by decide

/-- The default tunnel port appended to the separator. -/
theorem default_port_10004 : (":" ++ "10004" : String) = ":10004" := by decide

/-- On the legacy branch no modern document is written. -/
theorem writtenDocs_legacy (k : Consts) (ext : Ext σ ρ) (ku : KubeEdgeInstTool)
    (w : World σ ρ) (h : ku.ToolVersion.GE v1_2_0 = false) :
    writtenDocs (callsOf (createEdgeConfigFiles k ext ku) w) = [] := by
  rw [callsOf_eq (createEdgeConfigFiles_legacy_calls k ext ku w h)]
  split_ifs <;> simp [writtenDocs, writtenDocs_copyCalls]

/-- The result of `createEdgeConfigFiles` in closed form: it is decided by
directory creation, by the cgroup driver check and by the document writes, and
never by the override copy. -/
theorem createEdgeConfigFiles_result (k : Consts) (ext : Ext σ ρ) (ku : KubeEdgeInstTool)
    (w : World σ ρ) :
    (createEdgeConfigFiles k ext ku w).1 =
      if ku.ToolVersion.GE v1_2_0 = true then
        (if (ext.MkdirAll k.KubeEdgeNewConfigDir ModePerm w.sys).1 = none then
          if validCGroupDriver ku then
            (ext.Write2File k.KubeEdgeEdgeCoreNewYaml (modernDoc k ext.NewDefaultEdgeCoreConfig ku)
              (ext.MkdirAll k.KubeEdgeNewConfigDir ModePerm w.sys).2).1
          else some ("unsupported CGroupDriver: " ++ ku.CGroupDriver)
        else some ("not able to create " ++ k.KubeEdgeNewConfigDir ++ " folder path"))
      else
        (if (ext.MkdirAll k.KubeEdgeConfPath ModePerm w.sys).1 = none then
          if (ext.WriteEdgeYamlFile k.KubeEdgeConfigEdgeYaml
                (legacyDoc k ku (ext.uuidNew (ext.MkdirAll k.KubeEdgeConfPath ModePerm w.sys).2).1)
                (ext.uuidNew (ext.MkdirAll k.KubeEdgeConfPath ModePerm w.sys).2).2).1 = none
          then
            (ext.WriteEdgeModulesYamlFile k.KubeEdgeConfigModulesYaml
              (ext.WriteEdgeYamlFile k.KubeEdgeConfigEdgeYaml
                (legacyDoc k ku (ext.uuidNew (ext.MkdirAll k.KubeEdgeConfPath ModePerm w.sys).2).1)
                (ext.uuidNew (ext.MkdirAll k.KubeEdgeConfPath ModePerm w.sys).2).2).2).1
          else
            (ext.WriteEdgeYamlFile k.KubeEdgeConfigEdgeYaml
              (legacyDoc k ku (ext.uuidNew (ext.MkdirAll k.KubeEdgeConfPath ModePerm w.sys).2).1)
              (ext.uuidNew (ext.MkdirAll k.KubeEdgeConfPath ModePerm w.sys).2).2).1
        else some ("not able to create " ++ k.KubeEdgeConfPath ++ " folder path")) := by
  have hc : ∀ w0 : World σ ρ, (copyStep ext ku w0).1 = none := by
    intro w0
    unfold copyStep
    split <;> rfl
  cases h : ku.ToolVersion.GE v1_2_0 with
  | true =>
    rw [createEdgeConfigFiles_modern k ext ku w h]
    unfold modernRun
    simp only [MkdirAll, Write2File, call_apply, if_true]
    split_ifs with h1 h2 h3 <;> simp_all
  | false =>
    rw [createEdgeConfigFiles_legacy k ext ku w h]
    unfold legacyRun
    simp only [MkdirAll, uuidNew, WriteEdgeYamlFile, WriteEdgeModulesYamlFile, call_apply]
    split_ifs with h1 h2 h3 <;> simp_all

/-- Shell commands among appended operations. -/
theorem shellCommands_append (a b : List (Call ρ)) :
    shellCommands (a ++ b) = shellCommands a ++ shellCommands b := by
  induction a with
  | nil => rfl
  | cons c cs ih => cases c <;> simp [shellCommands, ih]

/-- The shell commands of the override copy: the one `cp -r` to the fixed
destination when a `ConfigPath` is given, none otherwise. -/
theorem shellCommands_copyCalls (ext : Ext σ ρ) (ku : KubeEdgeInstTool) (s : σ) :
    shellCommands (copyCalls ext ku s) =
      if "" = ku.ConfigPath then []
      else ["cp -r " ++ ku.ConfigPath ++ " " ++ "/etc/kubeedge/config/edgecore.yaml"] := by
  unfold copyCalls
  split
  · rfl
  · split <;> rfl

/-- The override copy reaches no legacy-only operation. -/
theorem copyCalls_not_legacy (ext : Ext σ ρ) (ku : KubeEdgeInstTool) (s : σ) :
    ∀ c ∈ copyCalls ext ku s, c.isLegacyOp = false := by
  unfold copyCalls
  split
  · simp
  · split <;> simp [Call.isLegacyOp]

/-- The shell commands of a run of `createEdgeConfigFiles`, on either branch:
one `cp -r ConfigPath /etc/kubeedge/config/edgecore.yaml` when the run succeeds
and a `ConfigPath` is given, none otherwise. -/
theorem shellCommands_createEdgeConfigFiles (k : Consts) (ext : Ext σ ρ)
    (ku : KubeEdgeInstTool) (w : World σ ρ) :
    shellCommands (callsOf (createEdgeConfigFiles k ext ku) w) =
      if (createEdgeConfigFiles k ext ku w).1 = none ∧ "" ≠ ku.ConfigPath then
        ["cp -r " ++ ku.ConfigPath ++ " " ++ "/etc/kubeedge/config/edgecore.yaml"]
      else [] := by
  rw [createEdgeConfigFiles_result]
  cases h : ku.ToolVersion.GE v1_2_0 with
  | true =>
    rw [callsOf_eq (createEdgeConfigFiles_modern_calls k ext ku w h)]
    simp only [if_true]
    by_cases h1 : (ext.MkdirAll k.KubeEdgeNewConfigDir ModePerm w.sys).1 = none
    · by_cases h2 : validCGroupDriver ku
      · by_cases h3 : (ext.Write2File k.KubeEdgeEdgeCoreNewYaml
            (modernDoc k ext.NewDefaultEdgeCoreConfig ku)
            (ext.MkdirAll k.KubeEdgeNewConfigDir ModePerm w.sys).2).1 = none
        · by_cases h4 : "" = ku.ConfigPath <;>
            simp [h1, h2, h3, h4, shellCommands, shellCommands_copyCalls]
        · simp [h1, h2, h3, shellCommands]
      · simp [h1, h2, shellCommands]
    · simp [h1, shellCommands]
  | false =>
    rw [callsOf_eq (createEdgeConfigFiles_legacy_calls k ext ku w h)]
    simp only [Bool.false_eq_true, if_false]
    by_cases h1 : (ext.MkdirAll k.KubeEdgeConfPath ModePerm w.sys).1 = none
    · by_cases h2 : (ext.WriteEdgeYamlFile k.KubeEdgeConfigEdgeYaml
          (legacyDoc k ku (ext.uuidNew (ext.MkdirAll k.KubeEdgeConfPath ModePerm w.sys).2).1)
          (ext.uuidNew (ext.MkdirAll k.KubeEdgeConfPath ModePerm w.sys).2).2).1 = none
      · by_cases h3 : (ext.WriteEdgeModulesYamlFile k.KubeEdgeConfigModulesYaml
            (ext.WriteEdgeYamlFile k.KubeEdgeConfigEdgeYaml
              (legacyDoc k ku (ext.uuidNew (ext.MkdirAll k.KubeEdgeConfPath ModePerm w.sys).2).1)
              (ext.uuidNew (ext.MkdirAll k.KubeEdgeConfPath ModePerm w.sys).2).2).2).1 = none
        · by_cases h4 : "" = ku.ConfigPath <;>
            simp [h1, h2, h3, h4, shellCommands, shellCommands_copyCalls]
        · simp [h1, h2, h3, shellCommands]
      · simp [h1, h2, shellCommands]
    · simp [h1, shellCommands]

/-- The override copy writes no legacy modules document. -/
theorem writtenModulesYamls_copyCalls (ext : Ext σ ρ) (ku : KubeEdgeInstTool) (s : σ) :
    writtenModulesYamls (copyCalls ext ku s) = [] := by
  unfold copyCalls
  split
  · rfl
  · split <;> rfl

/-- The legacy modules documents written by `createEdgeConfigFiles` on the
legacy branch: one, at `KubeEdgeConfigModulesYaml`, once directory creation and
the write of the primary document succeeded. -/
theorem writtenModulesYamls_legacy (k : Consts) (ext : Ext σ ρ) (ku : KubeEdgeInstTool)
    (w : World σ ρ) (h : ku.ToolVersion.GE v1_2_0 = false) :
    writtenModulesYamls (callsOf (createEdgeConfigFiles k ext ku) w) =
      if (ext.MkdirAll k.KubeEdgeConfPath ModePerm w.sys).1 = none ∧
          (ext.WriteEdgeYamlFile k.KubeEdgeConfigEdgeYaml
            (legacyDoc k ku (ext.uuidNew (ext.MkdirAll k.KubeEdgeConfPath ModePerm w.sys).2).1)
            (ext.uuidNew (ext.MkdirAll k.KubeEdgeConfPath ModePerm w.sys).2).2).1 = none
      then [k.KubeEdgeConfigModulesYaml] else [] := by
  rw [callsOf_eq (createEdgeConfigFiles_legacy_calls k ext ku w h)]
  by_cases h1 : (ext.MkdirAll k.KubeEdgeConfPath ModePerm w.sys).1 = none
  · by_cases h2 : (ext.WriteEdgeYamlFile k.KubeEdgeConfigEdgeYaml
        (legacyDoc k ku (ext.uuidNew (ext.MkdirAll k.KubeEdgeConfPath ModePerm w.sys).2).1)
        (ext.uuidNew (ext.MkdirAll k.KubeEdgeConfPath ModePerm w.sys).2).2).1 = none
    · simp only [h1, h2, if_true, and_self, writtenModulesYamls]
      split_ifs <;> simp [writtenModulesYamls, writtenModulesYamls_copyCalls]
    · simp [h1, h2, writtenModulesYamls]
  · simp [h1, writtenModulesYamls]

/-- Operations none of which is legacy-only contain no legacy primary
document. -/
theorem writtenEdgeYamls_of_not_legacy (cs : List (Call ρ))
    (h : ∀ c ∈ cs, c.isLegacyOp = false) : writtenEdgeYamls cs = [] := by
  induction cs with
  | nil => rfl
  | cons c cs ih =>
    have hc := h c (List.mem_cons_self c cs)
    have ih' := ih (fun d hd => h d (List.mem_cons_of_mem c hd))
    cases c <;> simp_all [writtenEdgeYamls, Call.isLegacyOp]

/-- Operations none of which is legacy-only contain no legacy modules
document. -/
theorem writtenModulesYamls_of_not_legacy (cs : List (Call ρ))
    (h : ∀ c ∈ cs, c.isLegacyOp = false) : writtenModulesYamls cs = [] := by
  induction cs with
  | nil => rfl
  | cons c cs ih =>
    have hc := h c (List.mem_cons_self c cs)
    have ih' := ih (fun d hd => h d (List.mem_cons_of_mem c hd))
    cases c <;> simp_all [writtenModulesYamls, Call.isLegacyOp]

/-- On the modern branch `createEdgeConfigFiles` reaches no legacy-only
operation. -/
theorem createEdgeConfigFiles_modern_not_legacy (k : Consts) (ext : Ext σ ρ)
    (ku : KubeEdgeInstTool) (w : World σ ρ) (h : ku.ToolVersion.GE v1_2_0 = true) :
    ∀ c ∈ callsOf (createEdgeConfigFiles k ext ku) w, c.isLegacyOp = false := by
  intro c hc
  rw [callsOf_eq (createEdgeConfigFiles_modern_calls k ext ku w h)] at hc
  have hcc := copyCalls_not_legacy ext ku
  split_ifs at hc with h1 h2
  · simp only [List.mem_cons] at hc
    rcases hc with hc | hc | hc
    · subst hc; rfl
    · subst hc; rfl
    · exact hcc _ c hc
  · simp only [List.mem_cons, List.mem_singleton, List.not_mem_nil, or_false] at hc
    rcases hc with hc | hc
    · subst hc; rfl
    · subst hc; rfl
  · simp only [List.mem_singleton] at hc
    subst hc; rfl

end Basic

/-! ## The claims -/

section Claims

variable {σ ρ : Type}

/-- C1, as stated, fails: the pre-release `1.2.0-alpha` has major 1 and minor 2,
yet `GE` against `1.2.0` is false, and `createEdgeConfigFiles` run on it with
the sample system performs the legacy operations (legacy directory, identifier,
the two legacy documents). -/
theorem C1_prerelease_takes_legacy_branch :
    ¬ ((Version.GE ⟨1, 2, 0, [⟨"alpha", 0, false⟩], []⟩ v1_2_0 = true) ↔
        ((⟨1, 2, 0, [⟨"alpha", 0, false⟩], []⟩ : Version).Major > 1 ∨
          ((⟨1, 2, 0, [⟨"alpha", 0, false⟩], []⟩ : Version).Major = 1 ∧
            (⟨1, 2, 0, [⟨"alpha", 0, false⟩], []⟩ : Version).Minor ≥ 2))) ∧
      callsOf (createEdgeConfigFiles demoConsts (demoExt false none none none)
          (demoTool ⟨1, 2, 0, [⟨"alpha", 0, false⟩], []⟩ "1.2.3.4:443")) demoWorld =
        [Call.MkdirAll "/etc/kubeedge/edge/conf" 0o777, Call.uuidNew,
          Call.WriteEdgeYamlFile "/etc/kubeedge/edge/conf/edge.yaml"
            ⟨⟨⟨"wss://1.2.3.4:443:10000/e632aba927ea4ac2b575ec1603d56f10/uuid-x/events"⟩⟩, ⟨""⟩⟩,
          Call.WriteEdgeModulesYamlFile "/etc/kubeedge/edge/conf/modules.yaml"] := by
  constructor
  · decide
  · decide

/-- C1, amended: `createEdgeConfigFiles` takes the modern branch, i.e.
`v.GE(1.2.0)` holds, exactly when `v.Major > 1` or (`v.Major = 1` and
`v.Minor >= 2`), except for a pre-release of 1.2.0 itself (major 1, minor 2,
patch 0 and at least one pre-release identifier), which takes the legacy
branch. -/
theorem C1_modern_branch_iff (v : Version) :
    v.GE v1_2_0 = true ↔
      (v.Major > 1 ∨ (v.Major = 1 ∧ v.Minor ≥ 2)) ∧
        ¬ (v.Major = 1 ∧ v.Minor = 2 ∧ v.Patch = 0 ∧ v.Pre ≠ []) := by
  obtain ⟨major, minor, patch, pre, build⟩ := v
  simp only [Version.GE, Version.Compare, v1_2_0, decide_eq_true_eq, List.length_nil]
  by_cases h1 : major = 1
  · subst h1
    by_cases h2 : minor = 2
    · subst h2
      by_cases h3 : patch = 0
      · subst h3
        cases pre with
        | nil => simp
        | cons p ps => simp
      · have h3pos : patch > 0 := Nat.pos_of_ne_zero h3
        simp [h3, h3pos]
    · by_cases h2gt : minor > 2
      · simp [h2, h2gt]
        omega
      · simp [h2, h2gt]
        omega
  · by_cases h1gt : major > 1
    · simp [h1, h1gt]
    · simp [h1, h1gt]

/-- C2: when the running-process check answers `(true, nil)`, `InstallTools`
returns the "already running" error; the only operations performed are
`SetOSInterface` and the check itself (so `InstallKubeEdge`, directory
creation, document writes, the copy and `RunEdgeCore` are not reached), the
system is left as the check left it, and both URL templates keep their
values. -/
theorem C2_already_running (k : Consts) (ext : Ext σ ρ) (ku : KubeEdgeInstTool)
    (w : World σ ρ)
    (h : (ext.IsKubeEdgeProcessRunning k.KubeEdgeBinaryName (ext.SetOSInterface w.sys)).1 =
      (true, none)) :
    InstallTools k ext ku w =
      (some "EdgeCore is already running on this node, please run reset to clean up first",
        { sys :=
            (ext.IsKubeEdgeProcessRunning k.KubeEdgeBinaryName (ext.SetOSInterface w.sys)).2
          KubeEdgeDownloadURL := w.KubeEdgeDownloadURL
          ServiceFileURLFormat := w.ServiceFileURLFormat
          calls := w.calls ++
            [Call.SetOSInterface, Call.IsKubeEdgeProcessRunning k.KubeEdgeBinaryName] }) := by
  rw [InstallTools_eq]
  simp [IsKubeEdgeProcessRunning, SetOSInterface, call_apply, h]

/-- C2 on the sample system with a running agent, version 1.3.0. -/
theorem C2_already_running_witness :
    ((demoExt true none none none).IsKubeEdgeProcessRunning demoConsts.KubeEdgeBinaryName
        ((demoExt true none none none).SetOSInterface demoWorld.sys)).1 = (true, none) ∧
      InstallTools demoConsts (demoExt true none none none)
          (demoTool ⟨1, 3, 0, [], []⟩ "1.2.3.4:443") demoWorld =
        (some "EdgeCore is already running on this node, please run reset to clean up first",
          { sys := 2
            KubeEdgeDownloadURL := "https://default.example/download"
            ServiceFileURLFormat := "https://default.example/service/%s/%s"
            calls := [Call.SetOSInterface, Call.IsKubeEdgeProcessRunning "edgecore"] }) :=
  ⟨rfl, C2_already_running demoConsts (demoExt true none none none)
    (demoTool ⟨1, 3, 0, [], []⟩ "1.2.3.4:443") demoWorld rfl⟩

/-- C3: on the modern branch (`v >= 1.2.0`), with `host` the prefix of
`CloudCoreIP` before its first `':'`, every document that
`createEdgeConfigFiles` hands to `Write2File` has
`HTTPServer = "https://" ++ host ++ ":" ++ (CertPort or "10002")`,
`Quic.Server = host ++ ":" ++ (QuicPort or "10001")`,
`TunnelServer = host ++ ":" ++ (TunnelPort or "10004")` and `Enable = true`; and
once directory creation succeeds and the cgroup driver is accepted, exactly one
document is written, at `KubeEdgeEdgeCoreNewYaml`. -/
theorem C3_modern_endpoints (k : Consts) (ext : Ext σ ρ) (ku : KubeEdgeInstTool)
    (w : World σ ρ) (h : ku.ToolVersion.GE v1_2_0 = true) :
    (∀ p ∈ writtenDocs (callsOf (createEdgeConfigFiles k ext ku) w),
      p.2.Modules.EdgeHub.HTTPServer =
          "https://" ++ hostPrefix ku.CloudCoreIP ++ ":" ++
            (if ku.CertPort ≠ "" then ku.CertPort else "10002") ∧
        p.2.Modules.EdgeHub.Quic.Server =
          hostPrefix ku.CloudCoreIP ++ ":" ++
            (if ku.QuicPort ≠ "" then ku.QuicPort else "10001") ∧
        p.2.Modules.EdgeStream.TunnelServer =
          hostPrefix ku.CloudCoreIP ++ ":" ++
            (if ku.TunnelPort ≠ "" then ku.TunnelPort else "10004") ∧
        p.2.Modules.EdgeStream.Enable = true) ∧
      ((ext.MkdirAll k.KubeEdgeNewConfigDir ModePerm w.sys).1 = none → validCGroupDriver ku →
        ∃ doc, writtenDocs (callsOf (createEdgeConfigFiles k ext ku) w) =
          [(k.KubeEdgeEdgeCoreNewYaml, doc)]) := by
  rw [writtenDocs_modern k ext ku w h]
  constructor
  · intro p hp
    split_ifs at hp with hc
    · simp only [List.mem_singleton] at hp
      subst hp
      simp only [modernDoc, splitHost_eq_hostPrefix]
      refine ⟨?_, ?_, ?_, trivial⟩ <;> split_ifs <;>
        simp_all [String.append_assoc, default_port_10001, default_port_10002,
          default_port_10004]
    · simp at hp
  · intro hm hv
    exact ⟨modernDoc k ext.NewDefaultEdgeCoreConfig ku, by simp [hm, hv]⟩

/-- C3 on the sample system: version 1.3.0, `CloudCoreIP = "1.2.3.4:443"`, no
port set. -/
theorem C3_modern_endpoints_witness :
    Version.GE ⟨1, 3, 0, [], []⟩ v1_2_0 = true ∧
      (∀ p ∈ writtenDocs (callsOf (createEdgeConfigFiles demoConsts (demoExt false none none none)
          (demoTool ⟨1, 3, 0, [], []⟩ "1.2.3.4:443")) demoWorld),
        p.2.Modules.EdgeHub.HTTPServer = "https://1.2.3.4:10002" ∧
          p.2.Modules.EdgeHub.Quic.Server = "1.2.3.4:10001" ∧
          p.2.Modules.EdgeStream.TunnelServer = "1.2.3.4:10004" ∧
          p.2.Modules.EdgeStream.Enable = true) ∧
      (∃ doc, writtenDocs (callsOf (createEdgeConfigFiles demoConsts (demoExt false none none none)
          (demoTool ⟨1, 3, 0, [], []⟩ "1.2.3.4:443")) demoWorld) =
        [("/etc/kubeedge/config/edgecore.yaml", doc)]) :=
  ⟨by decide,
    (C3_modern_endpoints demoConsts (demoExt false none none none)
      (demoTool ⟨1, 3, 0, [], []⟩ "1.2.3.4:443") demoWorld (by decide)).1,
    (C3_modern_endpoints demoConsts (demoExt false none none none)
      (demoTool ⟨1, 3, 0, [], []⟩ "1.2.3.4:443") demoWorld (by decide)).2 rfl (by decide)⟩

/-- C4: on the modern branch, when directory creation succeeds and `Write2File`
succeeds on whatever document it is given, `createEdgeConfigFiles` returns the
unsupported-CGroupDriver error exactly when `CGroupDriver` is non-empty and
neither `"systemd"` nor `"cgroupfs"`; with `"systemd"` or `"cgroupfs"` it returns
`nil` and the one written document carries that value; with the empty string it
returns `nil` and the written document keeps the default document's value. -/
theorem C4_cgroup_driver (k : Consts) (ext : Ext σ ρ) (ku : KubeEdgeInstTool)
    (w : World σ ρ) (h : ku.ToolVersion.GE v1_2_0 = true)
    (hm : (ext.MkdirAll k.KubeEdgeNewConfigDir ModePerm w.sys).1 = none)
    (hw : ∀ doc, (ext.Write2File k.KubeEdgeEdgeCoreNewYaml doc
      (ext.MkdirAll k.KubeEdgeNewConfigDir ModePerm w.sys).2).1 = none) :
    ((createEdgeConfigFiles k ext ku w).1 =
          some ("unsupported CGroupDriver: " ++ ku.CGroupDriver) ↔
        ku.CGroupDriver ≠ "" ∧ ku.CGroupDriver ≠ "systemd" ∧ ku.CGroupDriver ≠ "cgroupfs") ∧
      (ku.CGroupDriver = "systemd" ∨ ku.CGroupDriver = "cgroupfs" →
        (createEdgeConfigFiles k ext ku w).1 = none ∧
          ∃ doc, writtenDocs (callsOf (createEdgeConfigFiles k ext ku) w) =
              [(k.KubeEdgeEdgeCoreNewYaml, doc)] ∧
            doc.Modules.Edged.CGroupDriver = ku.CGroupDriver) ∧
      (ku.CGroupDriver = "" →
        (createEdgeConfigFiles k ext ku w).1 = none ∧
          ∃ doc, writtenDocs (callsOf (createEdgeConfigFiles k ext ku) w) =
              [(k.KubeEdgeEdgeCoreNewYaml, doc)] ∧
            doc.Modules.Edged.CGroupDriver =
              ext.NewDefaultEdgeCoreConfig.Modules.Edged.CGroupDriver) := by
  have hres : (createEdgeConfigFiles k ext ku w).1 =
      if validCGroupDriver ku then none
      else some ("unsupported CGroupDriver: " ++ ku.CGroupDriver) := by
    rw [createEdgeConfigFiles_modern k ext ku w h]
    unfold modernRun copyStep
    simp only [MkdirAll, Write2File, call_apply, hm, hw, if_true]
    split_ifs <;> rfl
  have hvalid : validCGroupDriver ku ↔
      ¬ (ku.CGroupDriver ≠ "" ∧ ku.CGroupDriver ≠ "systemd" ∧ ku.CGroupDriver ≠ "cgroupfs") := by
    unfold validCGroupDriver CGroupDriverSystemd CGroupDriverCGroupFS
    tauto
  rw [writtenDocs_modern k ext ku w h, hres]
  refine ⟨?_, ?_, ?_⟩
  · by_cases hv : validCGroupDriver ku
    · simp only [hv, if_true]
      constructor
      · intro hc; cases hc
      · intro hc; exact absurd hc (hvalid.1 hv)
    · simp only [hv, if_false, true_iff]
      by_contra hc
      exact hv (hvalid.2 hc)
  · intro hd
    have hv : validCGroupDriver ku := by
      unfold validCGroupDriver CGroupDriverSystemd CGroupDriverCGroupFS
      tauto
    have hne : ku.CGroupDriver ≠ "" := by
      rcases hd with hd | hd <;> rw [hd] <;> decide
    refine ⟨by simp [hv], modernDoc k ext.NewDefaultEdgeCoreConfig ku, by simp [hm, hv], ?_⟩
    simp [modernDoc, hne]
  · intro hd
    have hv : validCGroupDriver ku := Or.inl hd
    refine ⟨by simp [hv], modernDoc k ext.NewDefaultEdgeCoreConfig ku, by simp [hm, hv], ?_⟩
    simp [modernDoc, hd]

/-- C4 on the sample system: version 1.3.0 with `CGroupDriver = "invalid"`
fails, with `CGroupDriver = "systemd"` succeeds and sets the field. -/
theorem C4_cgroup_driver_witness :
    Version.GE ⟨1, 3, 0, [], []⟩ v1_2_0 = true ∧
      (createEdgeConfigFiles demoConsts (demoExt false none none none)
        { demoTool ⟨1, 3, 0, [], []⟩ "1.2.3.4:443" with CGroupDriver := "invalid" }
        demoWorld).1 = some "unsupported CGroupDriver: invalid" ∧
      (createEdgeConfigFiles demoConsts (demoExt false none none none)
        { demoTool ⟨1, 3, 0, [], []⟩ "1.2.3.4:443" with CGroupDriver := "systemd" }
        demoWorld).1 = none ∧
      ∃ doc, writtenDocs (callsOf (createEdgeConfigFiles demoConsts (demoExt false none none none)
            { demoTool ⟨1, 3, 0, [], []⟩ "1.2.3.4:443" with CGroupDriver := "systemd" })
            demoWorld) = [("/etc/kubeedge/config/edgecore.yaml", doc)] ∧
        doc.Modules.Edged.CGroupDriver = "systemd" :=
  ⟨by decide,
    (C4_cgroup_driver demoConsts (demoExt false none none none)
      { demoTool ⟨1, 3, 0, [], []⟩ "1.2.3.4:443" with CGroupDriver := "invalid" } demoWorld
      (by decide) rfl (fun _ => rfl)).1.2 (by decide),
    (C4_cgroup_driver demoConsts (demoExt false none none none)
      { demoTool ⟨1, 3, 0, [], []⟩ "1.2.3.4:443" with CGroupDriver := "systemd" } demoWorld
      (by decide) rfl (fun _ => rfl)).2.1 (Or.inl rfl)⟩

/-- C5: once the running-process check has answered `(false, nil)`, the
URL-resolution step of `InstallTools` leaves the pair of templates equal to the
fixed public GitHub pair when `Region = "en"` (whatever `DownloadURL` is), else
to the pair derived from a non-empty `DownloadURL`, else to the values the
templates had before; `InstallKubeEdge`, the fourth operation, is reached with
exactly this pair. -/
theorem C5_url_resolution (k : Consts) (ext : Ext σ ρ) (ku : KubeEdgeInstTool) (w : World σ ρ)
    (h : (ext.IsKubeEdgeProcessRunning k.KubeEdgeBinaryName (ext.SetOSInterface w.sys)).1 =
      (false, none)) :
    (InstallTools k ext ku w).2.urls =
      (if ku.Region = "en" then
        ("https://github.com/kubeedge/kubeedge/releases/download",
          "https://raw.githubusercontent.com/kubeedge/kubeedge/release-%s/build/tools/%s")
      else if ku.DownloadURL ≠ "" then
        (ku.DownloadURL ++ "/releases/download", ku.DownloadURL ++ "/releases/service/%s/%s")
      else w.urls) ∧
      (callsOf (InstallTools k ext ku) w)[3]? =
        some (Call.InstallKubeEdge { TarballPath := ku.TarballPath, ComponentType := .EdgeCore }
          (InstallTools k ext ku w).2.urls.1 (InstallTools k ext ku w).2.urls.2) := by
  have hobs := installRun_obs k ext ku
    { sys := (ext.IsKubeEdgeProcessRunning k.KubeEdgeBinaryName (ext.SetOSInterface w.sys)).2
      KubeEdgeDownloadURL := w.KubeEdgeDownloadURL
      ServiceFileURLFormat := w.ServiceFileURLFormat
      calls := w.calls ++
        [Call.SetOSInterface, Call.IsKubeEdgeProcessRunning k.KubeEdgeBinaryName] }
  rw [← InstallTools_not_running k ext ku w h] at hobs
  obtain ⟨hdl, hsf, hcs⟩ := hobs
  have hcalls := callsOf_eq (by rw [hcs, List.append_assoc])
  unfold World.urls
  constructor
  · rw [hdl, hsf]
    unfold urlsResolved
    split_ifs <;> simp_all
  · rw [hcalls, hdl, hsf]
    simp

/-- C5 on the sample system: `Resolve("", "")` keeps the built-in templates,
`Resolve("http://x", "")` gives `http://x/releases/download`, and
`Resolve("http://x", "en")` gives the fixed public hosts. -/
theorem C5_url_resolution_witness :
    ((demoExt false none none none).IsKubeEdgeProcessRunning demoConsts.KubeEdgeBinaryName
        ((demoExt false none none none).SetOSInterface demoWorld.sys)).1 = (false, none) ∧
      (InstallTools demoConsts (demoExt false none none none)
          (demoTool ⟨1, 3, 0, [], []⟩ "1.2.3.4:443") demoWorld).2.urls =
        ("https://default.example/download", "https://default.example/service/%s/%s") ∧
      (InstallTools demoConsts (demoExt false none none none)
          { demoTool ⟨1, 3, 0, [], []⟩ "1.2.3.4:443" with DownloadURL := "http://x" }
          demoWorld).2.urls =
        ("http://x/releases/download", "http://x/releases/service/%s/%s") ∧
      (InstallTools demoConsts (demoExt false none none none)
          { demoTool ⟨1, 3, 0, [], []⟩ "1.2.3.4:443" with
            DownloadURL := "http://x", Region := "en" }
          demoWorld).2.urls =
        ("https://github.com/kubeedge/kubeedge/releases/download",
          "https://raw.githubusercontent.com/kubeedge/kubeedge/release-%s/build/tools/%s") :=
  ⟨rfl,
    (C5_url_resolution demoConsts (demoExt false none none none)
      (demoTool ⟨1, 3, 0, [], []⟩ "1.2.3.4:443") demoWorld rfl).1,
    (C5_url_resolution demoConsts (demoExt false none none none)
      { demoTool ⟨1, 3, 0, [], []⟩ "1.2.3.4:443" with DownloadURL := "http://x" } demoWorld rfl).1,
    (C5_url_resolution demoConsts (demoExt false none none none)
      { demoTool ⟨1, 3, 0, [], []⟩ "1.2.3.4:443" with DownloadURL := "http://x", Region := "en" }
      demoWorld rfl).1⟩

/-- C6: on the legacy branch (`v < 1.2.0`) every primary document that
`createEdgeConfigFiles` hands to `WriteEdgeYamlFile` goes to
`KubeEdgeConfigEdgeYaml`, has the websocket URL
`"wss://" ++ (CloudCoreIP or "0.0.0.0") ++ ":10000/" ++ DefaultProjectID ++ "/" ++
nodeID ++ "/events"`, where `nodeID` is `EdgeNodeName` when that is non-empty and
otherwise the identifier returned by this run's `uuid.New()`, and has
`RuntimeType` copied verbatim; once directory creation succeeds the generator is
the second operation and exactly one primary document is written. -/
theorem C6_legacy_document (k : Consts) (ext : Ext σ ρ) (ku : KubeEdgeInstTool)
    (w : World σ ρ) (h : ku.ToolVersion.GE v1_2_0 = false) :
    (∀ p ∈ writtenEdgeYamls (callsOf (createEdgeConfigFiles k ext ku) w),
      p.1 = k.KubeEdgeConfigEdgeYaml ∧
        p.2.EdgeHub.WebSocket.URL =
          "wss://" ++ (if ku.CloudCoreIP ≠ "" then ku.CloudCoreIP else "0.0.0.0") ++ ":10000/" ++
            k.DefaultProjectID ++ "/" ++
            (if ku.EdgeNodeName ≠ "" then ku.EdgeNodeName
              else (ext.uuidNew (ext.MkdirAll k.KubeEdgeConfPath ModePerm w.sys).2).1) ++
            "/events" ∧
        p.2.EdgeD.RuntimeType = ku.RuntimeType) ∧
      ((ext.MkdirAll k.KubeEdgeConfPath ModePerm w.sys).1 = none →
        (callsOf (createEdgeConfigFiles k ext ku) w)[1]? = some Call.uuidNew ∧
          ∃ doc, writtenEdgeYamls (callsOf (createEdgeConfigFiles k ext ku) w) =
            [(k.KubeEdgeConfigEdgeYaml, doc)]) := by
  constructor
  · rw [writtenEdgeYamls_legacy k ext ku w h]
    intro p hp
    split_ifs at hp with hc
    · simp only [List.mem_singleton] at hp
      subst hp
      refine ⟨rfl, ?_, rfl⟩
      simp only [legacyDoc]
      by_cases h1 : ku.CloudCoreIP = "" <;> by_cases h2 : ku.EdgeNodeName = "" <;>
        simp [h1, h2, Ne.symm, eq_comm]
    · simp at hp
  · intro hm
    constructor
    · rw [callsOf_eq (createEdgeConfigFiles_legacy_calls k ext ku w h)]
      simp [hm]
    · rw [writtenEdgeYamls_legacy k ext ku w h]
      exact ⟨legacyDoc k ku (ext.uuidNew (ext.MkdirAll k.KubeEdgeConfPath ModePerm w.sys).2).1,
        by simp only [hm, if_true]⟩

/-- C6 on the sample system: version 1.0.0 with `EdgeNodeName = "node1"`. -/
theorem C6_legacy_document_witness :
    Version.GE ⟨1, 0, 0, [], []⟩ v1_2_0 = false ∧
      ∀ p ∈ writtenEdgeYamls (callsOf (createEdgeConfigFiles demoConsts
          (demoExt false none none none)
          { demoTool ⟨1, 0, 0, [], []⟩ "1.2.3.4" with
            EdgeNodeName := "node1", RuntimeType := "docker" }) demoWorld),
        p.1 = "/etc/kubeedge/edge/conf/edge.yaml" ∧
          p.2.EdgeHub.WebSocket.URL =
            "wss://1.2.3.4:10000/e632aba927ea4ac2b575ec1603d56f10/node1/events" ∧
          p.2.EdgeD.RuntimeType = "docker" :=
  ⟨by decide,
    (C6_legacy_document demoConsts (demoExt false none none none)
      { demoTool ⟨1, 0, 0, [], []⟩ "1.2.3.4" with
        EdgeNodeName := "node1", RuntimeType := "docker" } demoWorld (by decide)).1⟩

/-- C7: every document written on the modern branch has, when the version is
1.2.x (`Major = 1` and `Minor = 2`, any patch), `TLSPrivateKeyFile` and
`TLSCertFile` equal to `KubeEdgeCloudDefaultCertPath ++ "server.key"` and
`++ "server.crt"`, and for every other modern version the default document's
values; a document is written once directory creation succeeds and the cgroup
driver is accepted; and version 1.1.9 is below 1.2.0, so it writes no modern
document at all. -/
theorem C7_tls_override (k : Consts) (ext : Ext σ ρ) (ku : KubeEdgeInstTool)
    (w : World σ ρ) (h : ku.ToolVersion.GE v1_2_0 = true) :
    (∀ p ∈ writtenDocs (callsOf (createEdgeConfigFiles k ext ku) w),
      (ku.ToolVersion.Major = 1 ∧ ku.ToolVersion.Minor = 2 →
        p.2.Modules.EdgeHub.TLSPrivateKeyFile = k.KubeEdgeCloudDefaultCertPath ++ "server.key" ∧
          p.2.Modules.EdgeHub.TLSCertFile = k.KubeEdgeCloudDefaultCertPath ++ "server.crt") ∧
        (¬ (ku.ToolVersion.Major = 1 ∧ ku.ToolVersion.Minor = 2) →
          p.2.Modules.EdgeHub.TLSPrivateKeyFile =
              ext.NewDefaultEdgeCoreConfig.Modules.EdgeHub.TLSPrivateKeyFile ∧
            p.2.Modules.EdgeHub.TLSCertFile =
              ext.NewDefaultEdgeCoreConfig.Modules.EdgeHub.TLSCertFile)) ∧
      ((ext.MkdirAll k.KubeEdgeNewConfigDir ModePerm w.sys).1 = none → validCGroupDriver ku →
        ∃ doc, writtenDocs (callsOf (createEdgeConfigFiles k ext ku) w) =
          [(k.KubeEdgeEdgeCoreNewYaml, doc)]) ∧
      Version.GE ⟨1, 1, 9, [], []⟩ v1_2_0 = false ∧
      writtenDocs (callsOf (createEdgeConfigFiles k ext
        { ku with ToolVersion := ⟨1, 1, 9, [], []⟩ }) w) = [] := by
  have h119 : Version.GE ⟨1, 1, 9, [], []⟩ v1_2_0 = false := by decide
  refine ⟨?_, ?_, h119, writtenDocs_legacy k ext _ w h119⟩
  · rw [writtenDocs_modern k ext ku w h]
    intro p hp
    split_ifs at hp with hc
    · simp only [List.mem_singleton] at hp
      subst hp
      simp only [modernDoc]
      constructor
      · intro hv
        simp [hv]
      · intro hv
        simp [hv]
    · simp at hp
  · intro hm hv
    rw [writtenDocs_modern k ext ku w h]
    exact ⟨modernDoc k ext.NewDefaultEdgeCoreConfig ku, by simp [hm, hv]⟩

/-- C7 on the sample system: versions 1.2.0, 1.2.3 and 1.2.9 get the legacy TLS
paths, version 1.3.0 keeps the default document's. -/
theorem C7_tls_override_witness :
    (Version.GE ⟨1, 2, 0, [], []⟩ v1_2_0 = true ∧ Version.GE ⟨1, 2, 3, [], []⟩ v1_2_0 = true ∧
      Version.GE ⟨1, 2, 9, [], []⟩ v1_2_0 = true ∧ Version.GE ⟨1, 3, 0, [], []⟩ v1_2_0 = true) ∧
      (∀ p ∈ writtenDocs (callsOf (createEdgeConfigFiles demoConsts (demoExt false none none none)
          (demoTool ⟨1, 2, 0, [], []⟩ "1.2.3.4:443")) demoWorld),
        p.2.Modules.EdgeHub.TLSPrivateKeyFile = "/etc/kubeedge/ca/server.key" ∧
          p.2.Modules.EdgeHub.TLSCertFile = "/etc/kubeedge/ca/server.crt") ∧
      (∀ p ∈ writtenDocs (callsOf (createEdgeConfigFiles demoConsts (demoExt false none none none)
          (demoTool ⟨1, 2, 3, [], []⟩ "1.2.3.4:443")) demoWorld),
        p.2.Modules.EdgeHub.TLSPrivateKeyFile = "/etc/kubeedge/ca/server.key" ∧
          p.2.Modules.EdgeHub.TLSCertFile = "/etc/kubeedge/ca/server.crt") ∧
      (∀ p ∈ writtenDocs (callsOf (createEdgeConfigFiles demoConsts (demoExt false none none none)
          (demoTool ⟨1, 2, 9, [], []⟩ "1.2.3.4:443")) demoWorld),
        p.2.Modules.EdgeHub.TLSPrivateKeyFile = "/etc/kubeedge/ca/server.key" ∧
          p.2.Modules.EdgeHub.TLSCertFile = "/etc/kubeedge/ca/server.crt") ∧
      (∀ p ∈ writtenDocs (callsOf (createEdgeConfigFiles demoConsts (demoExt false none none none)
          (demoTool ⟨1, 3, 0, [], []⟩ "1.2.3.4:443")) demoWorld),
        p.2.Modules.EdgeHub.TLSPrivateKeyFile = "/etc/kubeedge/certs/server.key" ∧
          p.2.Modules.EdgeHub.TLSCertFile = "/etc/kubeedge/certs/server.crt") :=
  ⟨by decide,
    fun p hp => ((C7_tls_override demoConsts (demoExt false none none none)
      (demoTool ⟨1, 2, 0, [], []⟩ "1.2.3.4:443") demoWorld (by decide)).1 p hp).1 ⟨rfl, rfl⟩,
    fun p hp => ((C7_tls_override demoConsts (demoExt false none none none)
      (demoTool ⟨1, 2, 3, [], []⟩ "1.2.3.4:443") demoWorld (by decide)).1 p hp).1 ⟨rfl, rfl⟩,
    fun p hp => ((C7_tls_override demoConsts (demoExt false none none none)
      (demoTool ⟨1, 2, 9, [], []⟩ "1.2.3.4:443") demoWorld (by decide)).1 p hp).1 ⟨rfl, rfl⟩,
    fun p hp => ((C7_tls_override demoConsts (demoExt false none none none)
      (demoTool ⟨1, 3, 0, [], []⟩ "1.2.3.4:443") demoWorld (by decide)).1 p hp).2 (by decide)⟩

/-- C8: write `r1`, `r2`, `r3` for the runs of `InstallKubeEdge`, of
`createEdgeConfigFiles` from the state `r1` left, and of `RunEdgeCore` from the
state `r2` left.  After a check that answered `(false, nil)`, `InstallTools`
returns the result and the state of the first of the three that failed, or of
`RunEdgeCore` when none did; it returns `nil` exactly when all three succeed;
its operations are the four leading ones, then those of
`createEdgeConfigFiles` if `InstallKubeEdge` succeeded, then `RunEdgeCore` if
both succeeded, so each step is reached at most once (`createEdgeConfigFiles`
being counted by its directory creation).  If the check itself fails, its error
is returned right after it. -/
theorem C8_install_sequence (k : Consts) (ext : Ext σ ρ) (ku : KubeEdgeInstTool)
    (w : World σ ρ) :
    let chk := ext.IsKubeEdgeProcessRunning k.KubeEdgeBinaryName (ext.SetOSInterface w.sys)
    let w0 : World σ ρ :=
      { sys := chk.2
        KubeEdgeDownloadURL := w.KubeEdgeDownloadURL
        ServiceFileURLFormat := w.ServiceFileURLFormat
        calls := w.calls ++
          [Call.SetOSInterface, Call.IsKubeEdgeProcessRunning k.KubeEdgeBinaryName] }
    let r1 := InstallKubeEdge ext { TarballPath := ku.TarballPath, ComponentType := .EdgeCore }
      (urlsResolved ku (SetKubeEdgeVersion ext ku.ToolVersion w0).2)
    let r2 := createEdgeConfigFiles k ext ku r1.2
    let r3 := RunEdgeCore ext r2.2
    (chk.1 = (false, none) →
      InstallTools k ext ku w = (if r1.1 = none then if r2.1 = none then r3 else r2 else r1) ∧
      ((InstallTools k ext ku w).1 = none ↔ r1.1 = none ∧ r2.1 = none ∧ r3.1 = none) ∧
      callsOf (InstallTools k ext ku) w =
        [Call.SetOSInterface, Call.IsKubeEdgeProcessRunning k.KubeEdgeBinaryName,
          Call.SetKubeEdgeVersion ku.ToolVersion,
          Call.InstallKubeEdge { TarballPath := ku.TarballPath, ComponentType := .EdgeCore }
            (urlsResolved ku w).KubeEdgeDownloadURL (urlsResolved ku w).ServiceFileURLFormat] ++
          (if r1.1 = none then
            callsOf (createEdgeConfigFiles k ext ku) r1.2 ++
              (if r2.1 = none then [Call.RunEdgeCore] else [])
          else []) ∧
      (callsOf (InstallTools k ext ku) w).countP Call.isInstallKubeEdge = 1 ∧
      (callsOf (InstallTools k ext ku) w).countP Call.isMkdirAll ≤ 1 ∧
      (callsOf (InstallTools k ext ku) w).countP Call.isRunEdgeCore ≤ 1) ∧
    (∀ (running : Bool) (e : GoError), chk.1 = (running, some e) →
      InstallTools k ext ku w = (some e, w0)) := by
  intro chk w0 r1 r2 r3
  constructor
  · intro h
    have hobs := installRun_obs k ext ku w0
    have heq := InstallTools_not_running k ext ku w h
    rw [← heq] at hobs
    obtain ⟨-, -, hcs⟩ := hobs
    have hcalls : callsOf (InstallTools k ext ku) w = _ :=
      callsOf_eq (by rw [hcs, List.append_assoc])
    have hres : InstallTools k ext ku w =
        (if r1.1 = none then if r2.1 = none then r3 else r2 else r1) := heq
    have hu : (urlsResolved ku w0).KubeEdgeDownloadURL = (urlsResolved ku w).KubeEdgeDownloadURL ∧
        (urlsResolved ku w0).ServiceFileURLFormat = (urlsResolved ku w).ServiceFileURLFormat := by
      unfold urlsResolved
      split_ifs <;> exact ⟨rfl, rfl⟩
    have hcnt := createEdgeConfigFiles_count k ext ku r1.2
    refine ⟨hres, ?_, ?_, ?_, ?_, ?_⟩
    · rw [hres]
      split_ifs with h1 h2
      · simp [h1, h2]
      · simp [h1, h2]
      · simp [h1]
    · rw [hcalls, hu.1, hu.2]
      rfl
    · rw [hcalls]
      split_ifs <;>
        simp [List.countP_cons, List.countP_append, hcnt, Call.isInstallKubeEdge]
    · rw [hcalls]
      split_ifs <;>
        simp [List.countP_cons, List.countP_append, hcnt, Call.isMkdirAll]
    · rw [hcalls]
      split_ifs <;>
        simp [List.countP_cons, List.countP_append, hcnt, Call.isRunEdgeCore]
  · intro running e h
    rw [InstallTools_eq]
    have h' : (IsKubeEdgeProcessRunning ext k.KubeEdgeBinaryName (SetOSInterface ext w).2).1 =
        (running, some e) := h
    have h2 : (IsKubeEdgeProcessRunning ext k.KubeEdgeBinaryName (SetOSInterface ext w).2).2 =
        w0 := by
      simp [IsKubeEdgeProcessRunning, SetOSInterface, call_apply, w0, chk]
    simp only [h', h2]
    simp

/-- C8 on the sample system with failing document writes: `InstallKubeEdge`
succeeds, `createEdgeConfigFiles` fails with the write error, and that error is
the result of `InstallTools`. -/
theorem C8_install_sequence_witness :
    ((demoExt false none (some "disk full") none).IsKubeEdgeProcessRunning
        demoConsts.KubeEdgeBinaryName
        ((demoExt false none (some "disk full") none).SetOSInterface demoWorld.sys)).1 =
        (false, none) ∧
      (InstallTools demoConsts (demoExt false none (some "disk full") none)
        (demoTool ⟨1, 3, 0, [], []⟩ "1.2.3.4:443") demoWorld).1 = some "disk full" ∧
      (callsOf (InstallTools demoConsts (demoExt false none (some "disk full") none)
        (demoTool ⟨1, 3, 0, [], []⟩ "1.2.3.4:443")) demoWorld).countP Call.isRunEdgeCore = 0 :=
  ⟨rfl,
    (congrArg Prod.fst ((C8_install_sequence demoConsts (demoExt false none (some "disk full") none)
      (demoTool ⟨1, 3, 0, [], []⟩ "1.2.3.4:443") demoWorld).1 rfl).1).trans rfl,
    (congrArg (List.countP Call.isRunEdgeCore)
      ((C8_install_sequence demoConsts (demoExt false none (some "disk full") none)
        (demoTool ⟨1, 3, 0, [], []⟩ "1.2.3.4:443") demoWorld).1 rfl).2.2.1).trans (by decide)⟩

/-- C9: the operations of `TearDown` are `SetOSInterface`, `SetKubeEdgeVersion`
and then `KillKubeEdgeBinary(KubeEdgeBinaryName)`, so the kill is attempted
exactly once and no running-process query precedes it; the result of `TearDown`
is the kill operation's result: `nil` when the kill reports success, its error
otherwise. -/
theorem C9_teardown (k : Consts) (ext : Ext σ ρ) (ku : KubeEdgeInstTool) (w : World σ ρ) :
    TearDown k ext ku w =
      ((ext.KillKubeEdgeBinary k.KubeEdgeBinaryName
          (ext.SetKubeEdgeVersion ku.ToolVersion (ext.SetOSInterface w.sys))).1,
        { sys :=
            (ext.KillKubeEdgeBinary k.KubeEdgeBinaryName
              (ext.SetKubeEdgeVersion ku.ToolVersion (ext.SetOSInterface w.sys))).2
          KubeEdgeDownloadURL := w.KubeEdgeDownloadURL
          ServiceFileURLFormat := w.ServiceFileURLFormat
          calls := w.calls ++
            [Call.SetOSInterface, Call.SetKubeEdgeVersion ku.ToolVersion,
              Call.KillKubeEdgeBinary k.KubeEdgeBinaryName] }) := by
  unfold TearDown
  simp only [Prog.bind_apply, SetOSInterface, SetKubeEdgeVersion, KillKubeEdgeBinary, call_apply,
    Prog.ite_apply, Prog.pure_apply, List.append_assoc, List.singleton_append, ne_eq]
  split_ifs with h1 <;> simp_all

/-- C10: every document written on the modern branch has
`EdgeHub.WebSocket.Server` equal to `CloudCoreIP` verbatim (empty or not); has
`Edged.HostnameOverride`, `Edged.NodeIP`, `Edged.RuntimeType` and `EdgeHub.Token`
equal to the caller's `EdgeNodeName`, `EdgeNodeIP`, `RuntimeType` and `Token`
when that value is non-empty and to the default document's value when it is
empty; and has both `Edged.RemoteRuntimeEndpoint` and
`Edged.RemoteImageEndpoint` equal to `RemoteRuntimeEndpoint` when it is
non-empty and to their defaults when it is empty.  With a valid or empty
`CGroupDriver` and a successful directory creation exactly one document is
written. -/
theorem C10_overlay (k : Consts) (ext : Ext σ ρ) (ku : KubeEdgeInstTool)
    (w : World σ ρ) (h : ku.ToolVersion.GE v1_2_0 = true) :
    (∀ p ∈ writtenDocs (callsOf (createEdgeConfigFiles k ext ku) w),
      p.2.Modules.EdgeHub.WebSocket.Server = ku.CloudCoreIP ∧
        p.2.Modules.Edged.HostnameOverride =
          (if ku.EdgeNodeName ≠ "" then ku.EdgeNodeName
            else ext.NewDefaultEdgeCoreConfig.Modules.Edged.HostnameOverride) ∧
        p.2.Modules.Edged.NodeIP =
          (if ku.EdgeNodeIP ≠ "" then ku.EdgeNodeIP
            else ext.NewDefaultEdgeCoreConfig.Modules.Edged.NodeIP) ∧
        p.2.Modules.Edged.RuntimeType =
          (if ku.RuntimeType ≠ "" then ku.RuntimeType
            else ext.NewDefaultEdgeCoreConfig.Modules.Edged.RuntimeType) ∧
        p.2.Modules.EdgeHub.Token =
          (if ku.Token ≠ "" then ku.Token
            else ext.NewDefaultEdgeCoreConfig.Modules.EdgeHub.Token) ∧
        p.2.Modules.Edged.RemoteRuntimeEndpoint =
          (if ku.RemoteRuntimeEndpoint ≠ "" then ku.RemoteRuntimeEndpoint
            else ext.NewDefaultEdgeCoreConfig.Modules.Edged.RemoteRuntimeEndpoint) ∧
        p.2.Modules.Edged.RemoteImageEndpoint =
          (if ku.RemoteRuntimeEndpoint ≠ "" then ku.RemoteRuntimeEndpoint
            else ext.NewDefaultEdgeCoreConfig.Modules.Edged.RemoteImageEndpoint)) ∧
      ((ext.MkdirAll k.KubeEdgeNewConfigDir ModePerm w.sys).1 = none → validCGroupDriver ku →
        ∃ doc, writtenDocs (callsOf (createEdgeConfigFiles k ext ku) w) =
          [(k.KubeEdgeEdgeCoreNewYaml, doc)]) := by
  rw [writtenDocs_modern k ext ku w h]
  constructor
  · intro p hp
    split_ifs at hp with hc
    · simp only [List.mem_singleton] at hp
      subst hp
      simp only [modernDoc]
      refine ⟨trivial, ?_, ?_, ?_, ?_, ?_, ?_⟩ <;> split_ifs <;> simp_all
    · simp at hp
  · intro hm hv
    exact ⟨modernDoc k ext.NewDefaultEdgeCoreConfig ku, by simp [hm, hv]⟩

/-- C10 on the sample system: version 1.3.0 with a node name, a token and a
remote runtime endpoint set, node IP and runtime type left empty. -/
theorem C10_overlay_witness :
    Version.GE ⟨1, 3, 0, [], []⟩ v1_2_0 = true ∧
      (∀ p ∈ writtenDocs (callsOf (createEdgeConfigFiles demoConsts (demoExt false none none none)
          { demoTool ⟨1, 3, 0, [], []⟩ "1.2.3.4:443" with
            EdgeNodeName := "node1", Token := "t0k3n"
            RemoteRuntimeEndpoint := "unix:///run/containerd.sock" }) demoWorld),
        p.2.Modules.EdgeHub.WebSocket.Server = "1.2.3.4:443" ∧
          p.2.Modules.Edged.HostnameOverride = "node1" ∧
          p.2.Modules.Edged.NodeIP = "127.0.0.1" ∧
          p.2.Modules.Edged.RuntimeType = "docker" ∧
          p.2.Modules.EdgeHub.Token = "t0k3n" ∧
          p.2.Modules.Edged.RemoteRuntimeEndpoint = "unix:///run/containerd.sock" ∧
          p.2.Modules.Edged.RemoteImageEndpoint = "unix:///run/containerd.sock") ∧
      (∃ doc, writtenDocs (callsOf (createEdgeConfigFiles demoConsts (demoExt false none none none)
          { demoTool ⟨1, 3, 0, [], []⟩ "1.2.3.4:443" with
            EdgeNodeName := "node1", Token := "t0k3n"
            RemoteRuntimeEndpoint := "unix:///run/containerd.sock" }) demoWorld) =
        [("/etc/kubeedge/config/edgecore.yaml", doc)]) :=
  ⟨by decide,
    (C10_overlay demoConsts (demoExt false none none none)
      { demoTool ⟨1, 3, 0, [], []⟩ "1.2.3.4:443" with
        EdgeNodeName := "node1", Token := "t0k3n"
        RemoteRuntimeEndpoint := "unix:///run/containerd.sock" } demoWorld (by decide)).1,
    (C10_overlay demoConsts (demoExt false none none none)
      { demoTool ⟨1, 3, 0, [], []⟩ "1.2.3.4:443" with
        EdgeNodeName := "node1", Token := "t0k3n"
        RemoteRuntimeEndpoint := "unix:///run/containerd.sock" } demoWorld (by decide)).2
      rfl (by decide)⟩

/-- C11 at a failing input: version 1.1.0 with `ConfigPath = "/tmp/edge.yaml"`
on the sample system, for any values of the package constants.  The legacy
branch writes its primary document to `KubeEdgeConfigEdgeYaml`, yet the one copy
it runs goes to the fixed path `/etc/kubeedge/config/edgecore.yaml`, the same
destination the modern branch (version 1.3.0, which writes
`KubeEdgeEdgeCoreNewYaml`) copies to. -/
theorem C11_legacy_copy_destination (k : Consts) :
    (writtenEdgeYamls (callsOf (createEdgeConfigFiles k (demoExt false none none none)
        { demoTool ⟨1, 1, 0, [], []⟩ "1.2.3.4" with ConfigPath := "/tmp/edge.yaml" })
        demoWorld)).map Prod.fst = [k.KubeEdgeConfigEdgeYaml] ∧
      shellCommands (callsOf (createEdgeConfigFiles k (demoExt false none none none)
        { demoTool ⟨1, 1, 0, [], []⟩ "1.2.3.4" with ConfigPath := "/tmp/edge.yaml" })
        demoWorld) = ["cp -r /tmp/edge.yaml /etc/kubeedge/config/edgecore.yaml"] ∧
      (writtenDocs (callsOf (createEdgeConfigFiles k (demoExt false none none none)
        { demoTool ⟨1, 3, 0, [], []⟩ "1.2.3.4" with ConfigPath := "/tmp/edge.yaml" })
        demoWorld)).map Prod.fst = [k.KubeEdgeEdgeCoreNewYaml] ∧
      shellCommands (callsOf (createEdgeConfigFiles k (demoExt false none none none)
        { demoTool ⟨1, 3, 0, [], []⟩ "1.2.3.4" with ConfigPath := "/tmp/edge.yaml" })
        demoWorld) = ["cp -r /tmp/edge.yaml /etc/kubeedge/config/edgecore.yaml"] ∧
      callsOf (createEdgeConfigFiles demoConsts (demoExt false none none none)
        { demoTool ⟨1, 1, 0, [], []⟩ "1.2.3.4" with ConfigPath := "/tmp/edge.yaml" })
        demoWorld =
        [Call.MkdirAll "/etc/kubeedge/edge/conf" 0o777, Call.uuidNew,
          Call.WriteEdgeYamlFile "/etc/kubeedge/edge/conf/edge.yaml"
            ⟨⟨⟨"wss://1.2.3.4:10000/e632aba927ea4ac2b575ec1603d56f10/uuid-x/events"⟩⟩, ⟨""⟩⟩,
          Call.WriteEdgeModulesYamlFile "/etc/kubeedge/edge/conf/modules.yaml",
          Call.shOutput "cp -r /tmp/edge.yaml /etc/kubeedge/config/edgecore.yaml",
          Call.Printf
            "fail to copy file:  cp -r /tmp/edge.yaml /etc/kubeedge/config/edgecore.yaml",
          Call.Printf "Output: exit status 1\n"] := by
  have hl : Version.GE ⟨1, 1, 0, [], []⟩ v1_2_0 = false := by decide
  have hm : Version.GE ⟨1, 3, 0, [], []⟩ v1_2_0 = true := by decide
  have hcmd : "cp -r " ++ "/tmp/edge.yaml" ++ " " ++ "/etc/kubeedge/config/edgecore.yaml" =
      "cp -r /tmp/edge.yaml /etc/kubeedge/config/edgecore.yaml" := by decide
  have hne : "" ≠ "/tmp/edge.yaml" := by decide
  have hres1 : (createEdgeConfigFiles k (demoExt false none none none)
      { demoTool ⟨1, 1, 0, [], []⟩ "1.2.3.4" with ConfigPath := "/tmp/edge.yaml" }
      demoWorld).1 = none := by
    rw [createEdgeConfigFiles_result]
    rfl
  have hres3 : (createEdgeConfigFiles k (demoExt false none none none)
      { demoTool ⟨1, 3, 0, [], []⟩ "1.2.3.4" with ConfigPath := "/tmp/edge.yaml" }
      demoWorld).1 = none := by
    rw [createEdgeConfigFiles_result]
    rfl
  refine ⟨?_, ?_, ?_, ?_, by decide⟩
  · rw [writtenEdgeYamls_legacy k _ _ _ hl]
    rfl
  · rw [shellCommands_createEdgeConfigFiles, if_pos ⟨hres1, hne⟩]
    exact congrArg (fun c => [c]) hcmd
  · rw [writtenDocs_modern k _ _ _ hm]
    rfl
  · rw [shellCommands_createEdgeConfigFiles, if_pos ⟨hres3, hne⟩]
    exact congrArg (fun c => [c]) hcmd

/-- C12: write `m` for directory creation, `wr` for the write of the modern
document, `w1` and `w2` for the writes of the two legacy documents.  On the
modern branch `createEdgeConfigFiles` returns an error exactly when `m` fails,
or `CGroupDriver` is non-empty and neither `"systemd"` nor `"cgroupfs"`, or `wr`
fails; on the legacy branch exactly when `m` fails or `w1` or `w2` fails.  The
override copy has no say: replacing the shell and print operations by any
others leaves the result unchanged, so a failing `CopyFile` still yields
`nil`. -/
theorem C12_error_iff (k : Consts) (ext : Ext σ ρ) (ku : KubeEdgeInstTool) (w : World σ ρ) :
    (ku.ToolVersion.GE v1_2_0 = true →
      let m := ext.MkdirAll k.KubeEdgeNewConfigDir ModePerm w.sys
      let wr := ext.Write2File k.KubeEdgeEdgeCoreNewYaml
        (modernDoc k ext.NewDefaultEdgeCoreConfig ku) m.2
      ((createEdgeConfigFiles k ext ku w).1 ≠ none ↔
        m.1 ≠ none ∨
          (ku.CGroupDriver ≠ "" ∧ ku.CGroupDriver ≠ "systemd" ∧ ku.CGroupDriver ≠ "cgroupfs") ∨
          wr.1 ≠ none)) ∧
    (ku.ToolVersion.GE v1_2_0 = false →
      let m := ext.MkdirAll k.KubeEdgeConfPath ModePerm w.sys
      let u := ext.uuidNew m.2
      let w1 := ext.WriteEdgeYamlFile k.KubeEdgeConfigEdgeYaml (legacyDoc k ku u.1) u.2
      let w2 := ext.WriteEdgeModulesYamlFile k.KubeEdgeConfigModulesYaml w1.2
      ((createEdgeConfigFiles k ext ku w).1 ≠ none ↔
        m.1 ≠ none ∨ w1.1 ≠ none ∨ w2.1 ≠ none)) ∧
    (∀ (sh : String → σ → (String × Option GoError) × σ) (pr : String → σ → σ),
      (createEdgeConfigFiles k { ext with shOutput := sh, Printf := pr } ku w).1 =
        (createEdgeConfigFiles k ext ku w).1) := by
  refine ⟨?_, ?_, ?_⟩
  · intro h m wr
    have hvalid : validCGroupDriver ku ↔
        ¬ (ku.CGroupDriver ≠ "" ∧ ku.CGroupDriver ≠ "systemd" ∧ ku.CGroupDriver ≠ "cgroupfs") := by
      unfold validCGroupDriver CGroupDriverSystemd CGroupDriverCGroupFS
      tauto
    rw [createEdgeConfigFiles_result, if_pos h]
    by_cases hm : m.1 = none
    · by_cases hv : validCGroupDriver ku
      · have hnv := hvalid.1 hv
        simp only [m] at hm
        simp only [hm, hv, if_true, ne_eq, not_true_eq_false, false_or, hnv, wr, m]
      · have hnv : ku.CGroupDriver ≠ "" ∧ ku.CGroupDriver ≠ "systemd" ∧
            ku.CGroupDriver ≠ "cgroupfs" := by
          by_contra hc
          exact hv (hvalid.2 hc)
        simp only [m] at hm
        simp [hm, hv, hnv]
    · simp only [m] at hm
      simp [hm]
  · intro h m u w1 w2
    have h' : ¬ (ku.ToolVersion.GE v1_2_0 = true) := by simp [h]
    rw [createEdgeConfigFiles_result, if_neg h']
    by_cases hm : m.1 = none
    · by_cases h1 : w1.1 = none
      · simp only [m] at hm
        simp only [w1, u, m] at h1
        simp only [hm, h1, if_true, ne_eq, not_true_eq_false, false_or, w2, w1, u, m]
      · simp only [m] at hm
        simp only [w1, u, m] at h1
        simp [hm, h1]
    · simp only [m] at hm
      simp [hm]
  · intro sh pr
    rw [createEdgeConfigFiles_result, createEdgeConfigFiles_result]

/-- C12 on the sample system, whose shell copy always fails: with a
`ConfigPath` and everything else succeeding the copy is attempted, its failure
is printed, and the result is `nil` on both branches; with failing writes the
result is the write error. -/
theorem C12_error_iff_witness :
    Version.GE ⟨1, 3, 0, [], []⟩ v1_2_0 = true ∧ Version.GE ⟨1, 1, 0, [], []⟩ v1_2_0 = false ∧
      (createEdgeConfigFiles demoConsts (demoExt false none none none)
        { demoTool ⟨1, 3, 0, [], []⟩ "1.2.3.4:443" with ConfigPath := "/tmp/edge.yaml" }
        demoWorld).1 = none ∧
      (createEdgeConfigFiles demoConsts (demoExt false none none none)
        { demoTool ⟨1, 1, 0, [], []⟩ "1.2.3.4" with ConfigPath := "/tmp/edge.yaml" }
        demoWorld).1 = none ∧
      (createEdgeConfigFiles demoConsts (demoExt false none (some "disk full") none)
        { demoTool ⟨1, 1, 0, [], []⟩ "1.2.3.4" with ConfigPath := "/tmp/edge.yaml" }
        demoWorld).1 ≠ none :=
  ⟨by decide, by decide,
    not_not.1 (fun hne =>
      absurd (((C12_error_iff demoConsts (demoExt false none none none)
        { demoTool ⟨1, 3, 0, [], []⟩ "1.2.3.4:443" with ConfigPath := "/tmp/edge.yaml" }
        demoWorld).1 (by decide)).1 hne) (by decide)),
    not_not.1 (fun hne =>
      absurd (((C12_error_iff demoConsts (demoExt false none none none)
        { demoTool ⟨1, 1, 0, [], []⟩ "1.2.3.4" with ConfigPath := "/tmp/edge.yaml" }
        demoWorld).2.1 (by decide)).1 hne) (by decide)),
    ((C12_error_iff demoConsts (demoExt false none (some "disk full") none)
      { demoTool ⟨1, 1, 0, [], []⟩ "1.2.3.4" with ConfigPath := "/tmp/edge.yaml" }
      demoWorld).2.1 (by decide)).2 (by decide)⟩

/-- C13: exactly one schema variant is produced per run, and the two have
disjoint inputs.  Legacy branch (`v < 1.2.0`): the whole outcome of
`createEdgeConfigFiles` (result, final state and recorded operations, hence the
contents of both legacy documents) is the same for two installers below 1.2.0
that agree on `EdgeNodeName`, `CloudCoreIP`, `RuntimeType` and `ConfigPath`, run
on the same system and so with the same generated identifier: it does not
depend on `CGroupDriver`, the three ports, `Token`, `EdgeNodeIP` or
`RemoteRuntimeEndpoint`; no modern document is written; once directory creation
succeeds exactly one primary document is written, at `KubeEdgeConfigEdgeYaml`,
and a run that returns `nil` has written exactly that primary document and
exactly one modules document, at `KubeEdgeConfigModulesYaml`.  Modern branch
(`v >= 1.2.0`): neither legacy document is written and the identifier generator
is not consulted; once directory creation succeeds and the cgroup driver is
accepted exactly one modern document is written, at `KubeEdgeEdgeCoreNewYaml`,
and so it is in every run that returns `nil`.  In every run, failed or not, at
most one document of each kind is written. -/
theorem C13_one_variant (k : Consts) (ext : Ext σ ρ) (ku ku' : KubeEdgeInstTool)
    (w : World σ ρ) :
    (ku.ToolVersion.GE v1_2_0 = false → ku'.ToolVersion.GE v1_2_0 = false →
      ku.EdgeNodeName = ku'.EdgeNodeName → ku.CloudCoreIP = ku'.CloudCoreIP →
      ku.RuntimeType = ku'.RuntimeType → ku.ConfigPath = ku'.ConfigPath →
      createEdgeConfigFiles k ext ku w = createEdgeConfigFiles k ext ku' w) ∧
    (ku.ToolVersion.GE v1_2_0 = false →
      writtenDocs (callsOf (createEdgeConfigFiles k ext ku) w) = []) ∧
    (ku.ToolVersion.GE v1_2_0 = true →
      ∀ c ∈ callsOf (createEdgeConfigFiles k ext ku) w, c.isLegacyOp = false) ∧
    (ku.ToolVersion.GE v1_2_0 = false →
      ((ext.MkdirAll k.KubeEdgeConfPath ModePerm w.sys).1 = none →
        ∃ doc, writtenEdgeYamls (callsOf (createEdgeConfigFiles k ext ku) w) =
          [(k.KubeEdgeConfigEdgeYaml, doc)]) ∧
      ((createEdgeConfigFiles k ext ku w).1 = none →
        (∃ doc, writtenEdgeYamls (callsOf (createEdgeConfigFiles k ext ku) w) =
          [(k.KubeEdgeConfigEdgeYaml, doc)]) ∧
        writtenModulesYamls (callsOf (createEdgeConfigFiles k ext ku) w) =
          [k.KubeEdgeConfigModulesYaml])) ∧
    (ku.ToolVersion.GE v1_2_0 = true →
      ((ext.MkdirAll k.KubeEdgeNewConfigDir ModePerm w.sys).1 = none → validCGroupDriver ku →
        ∃ doc, writtenDocs (callsOf (createEdgeConfigFiles k ext ku) w) =
          [(k.KubeEdgeEdgeCoreNewYaml, doc)]) ∧
      ((createEdgeConfigFiles k ext ku w).1 = none →
        ∃ doc, writtenDocs (callsOf (createEdgeConfigFiles k ext ku) w) =
          [(k.KubeEdgeEdgeCoreNewYaml, doc)])) ∧
    ((writtenDocs (callsOf (createEdgeConfigFiles k ext ku) w)).length ≤ 1 ∧
      (writtenEdgeYamls (callsOf (createEdgeConfigFiles k ext ku) w)).length ≤ 1 ∧
      (writtenModulesYamls (callsOf (createEdgeConfigFiles k ext ku) w)).length ≤ 1) := by
  refine ⟨?_, writtenDocs_legacy k ext ku w, ?_, ?_, ?_, ?_⟩
  · intro h h' hn hip hrt hcp
    rw [createEdgeConfigFiles_legacy k ext ku w h, createEdgeConfigFiles_legacy k ext ku' w h']
    have hdoc : ∀ edgeID, legacyDoc k ku edgeID = legacyDoc k ku' edgeID := by
      intro edgeID
      simp only [legacyDoc, hn, hip, hrt]
    have hcopy : ∀ w0 : World σ ρ, copyStep ext ku w0 = copyStep ext ku' w0 := by
      intro w0
      simp only [copyStep, hcp]
    unfold legacyRun
    simp only [hdoc, hcopy]
  · exact createEdgeConfigFiles_modern_not_legacy k ext ku w
  · intro h
    have hprim : (ext.MkdirAll k.KubeEdgeConfPath ModePerm w.sys).1 = none →
        ∃ doc, writtenEdgeYamls (callsOf (createEdgeConfigFiles k ext ku) w) =
          [(k.KubeEdgeConfigEdgeYaml, doc)] := by
      intro hm
      rw [writtenEdgeYamls_legacy k ext ku w h]
      exact ⟨legacyDoc k ku (ext.uuidNew (ext.MkdirAll k.KubeEdgeConfPath ModePerm w.sys).2).1,
        by simp only [hm, if_true]⟩
    refine ⟨hprim, ?_⟩
    intro hres
    rw [createEdgeConfigFiles_result] at hres
    have h' : ¬ (ku.ToolVersion.GE v1_2_0 = true) := by simp [h]
    rw [if_neg h'] at hres
    by_cases hm : (ext.MkdirAll k.KubeEdgeConfPath ModePerm w.sys).1 = none
    · rw [if_pos hm] at hres
      by_cases h1 : (ext.WriteEdgeYamlFile k.KubeEdgeConfigEdgeYaml
          (legacyDoc k ku (ext.uuidNew (ext.MkdirAll k.KubeEdgeConfPath ModePerm w.sys).2).1)
          (ext.uuidNew (ext.MkdirAll k.KubeEdgeConfPath ModePerm w.sys).2).2).1 = none
      · refine ⟨hprim hm, ?_⟩
        rw [writtenModulesYamls_legacy k ext ku w h, if_pos ⟨hm, h1⟩]
      · rw [if_neg h1] at hres
        exact absurd hres h1
    · rw [if_neg hm] at hres
      cases hres
  · intro h
    have hdoc : (ext.MkdirAll k.KubeEdgeNewConfigDir ModePerm w.sys).1 = none →
        validCGroupDriver ku →
        ∃ doc, writtenDocs (callsOf (createEdgeConfigFiles k ext ku) w) =
          [(k.KubeEdgeEdgeCoreNewYaml, doc)] := by
      intro hm hv
      rw [writtenDocs_modern k ext ku w h]
      exact ⟨modernDoc k ext.NewDefaultEdgeCoreConfig ku, by simp only [hm, hv, and_self, if_true]⟩
    refine ⟨hdoc, ?_⟩
    intro hres
    rw [createEdgeConfigFiles_result, if_pos h] at hres
    by_cases hm : (ext.MkdirAll k.KubeEdgeNewConfigDir ModePerm w.sys).1 = none
    · rw [if_pos hm] at hres
      by_cases hv : validCGroupDriver ku
      · exact hdoc hm hv
      · rw [if_neg hv] at hres
        cases hres
    · rw [if_neg hm] at hres
      cases hres
  · cases h : ku.ToolVersion.GE v1_2_0 with
    | true =>
      have hleg := createEdgeConfigFiles_modern_not_legacy k ext ku w h
      refine ⟨?_, ?_, ?_⟩
      · rw [writtenDocs_modern k ext ku w h]
        split_ifs <;> simp
      · rw [writtenEdgeYamls_of_not_legacy _ hleg]
        simp
      · rw [writtenModulesYamls_of_not_legacy _ hleg]
        simp
    | false =>
      refine ⟨?_, ?_, ?_⟩
      · rw [writtenDocs_legacy k ext ku w h]
        simp
      · rw [writtenEdgeYamls_legacy k ext ku w h]
        split_ifs <;> simp
      · rw [writtenModulesYamls_legacy k ext ku w h]
        split_ifs <;> simp

/-- C13 on the sample system: two legacy installers (1.1.0 and 1.0.5) that
differ in `CGroupDriver`, ports, `Token`, `EdgeNodeIP` and
`RemoteRuntimeEndpoint` have the same outcome; the 1.1.0 run returns `nil` and
has written one primary and one modules document and no modern one; the 1.3.0
run returns `nil`, has written one modern document and reaches no legacy-only
operation. -/
theorem C13_one_variant_witness :
    createEdgeConfigFiles demoConsts (demoExt false none none none)
        (demoTool ⟨1, 1, 0, [], []⟩ "1.2.3.4") demoWorld =
      createEdgeConfigFiles demoConsts (demoExt false none none none)
        { demoTool ⟨1, 0, 5, [], []⟩ "1.2.3.4" with
          CGroupDriver := "bogus", CertPort := "1", QuicPort := "2", TunnelPort := "3"
          Token := "t0k3n", EdgeNodeIP := "10.0.0.7", RemoteRuntimeEndpoint := "unix:///r.sock" }
        demoWorld ∧
      (∀ c ∈ callsOf (createEdgeConfigFiles demoConsts (demoExt false none none none)
          (demoTool ⟨1, 3, 0, [], []⟩ "1.2.3.4:443")) demoWorld, c.isLegacyOp = false) ∧
      ((∃ doc, writtenEdgeYamls (callsOf (createEdgeConfigFiles demoConsts
          (demoExt false none none none) (demoTool ⟨1, 1, 0, [], []⟩ "1.2.3.4")) demoWorld) =
          [("/etc/kubeedge/edge/conf/edge.yaml", doc)]) ∧
        writtenModulesYamls (callsOf (createEdgeConfigFiles demoConsts
          (demoExt false none none none) (demoTool ⟨1, 1, 0, [], []⟩ "1.2.3.4")) demoWorld) =
          ["/etc/kubeedge/edge/conf/modules.yaml"]) ∧
      writtenDocs (callsOf (createEdgeConfigFiles demoConsts
        (demoExt false none none none) (demoTool ⟨1, 1, 0, [], []⟩ "1.2.3.4")) demoWorld) = [] ∧
      (∃ doc, writtenDocs (callsOf (createEdgeConfigFiles demoConsts
        (demoExt false none none none) (demoTool ⟨1, 3, 0, [], []⟩ "1.2.3.4:443")) demoWorld) =
        [("/etc/kubeedge/config/edgecore.yaml", doc)]) :=
  ⟨(C13_one_variant demoConsts (demoExt false none none none)
      (demoTool ⟨1, 1, 0, [], []⟩ "1.2.3.4")
      { demoTool ⟨1, 0, 5, [], []⟩ "1.2.3.4" with
        CGroupDriver := "bogus", CertPort := "1", QuicPort := "2", TunnelPort := "3"
        Token := "t0k3n", EdgeNodeIP := "10.0.0.7", RemoteRuntimeEndpoint := "unix:///r.sock" }
      demoWorld).1 (by decide) (by decide) rfl rfl rfl rfl,
    (C13_one_variant demoConsts (demoExt false none none none)
      (demoTool ⟨1, 3, 0, [], []⟩ "1.2.3.4:443") (demoTool ⟨1, 3, 0, [], []⟩ "1.2.3.4:443")
      demoWorld).2.2.1 (by decide),
    ((C13_one_variant demoConsts (demoExt false none none none)
      (demoTool ⟨1, 1, 0, [], []⟩ "1.2.3.4") (demoTool ⟨1, 1, 0, [], []⟩ "1.2.3.4")
      demoWorld).2.2.2.1 (by decide)).2 (by decide),
    (C13_one_variant demoConsts (demoExt false none none none)
      (demoTool ⟨1, 1, 0, [], []⟩ "1.2.3.4") (demoTool ⟨1, 1, 0, [], []⟩ "1.2.3.4")
      demoWorld).2.1 (by decide),
    ((C13_one_variant demoConsts (demoExt false none none none)
      (demoTool ⟨1, 3, 0, [], []⟩ "1.2.3.4:443") (demoTool ⟨1, 3, 0, [], []⟩ "1.2.3.4:443")
      demoWorld).2.2.2.2.1 (by decide)).2 (by decide)⟩

/-- C14: every document written on the modern branch agrees with the default
document on every field outside the fourteen the installer may assign, at every
level of nesting: the remaining fields of the document, of `Modules`, of
`EdgeHub`, of `EdgeHub.WebSocket`, of `EdgeHub.Quic`, of `Edged` and of
`EdgeStream`.  A document is written once directory creation succeeds and the
cgroup driver is accepted. -/
theorem C14_frame (k : Consts) (ext : Ext σ ρ) (ku : KubeEdgeInstTool)
    (w : World σ ρ) (h : ku.ToolVersion.GE v1_2_0 = true) :
    (∀ p ∈ writtenDocs (callsOf (createEdgeConfigFiles k ext ku) w),
      p.2.rest = ext.NewDefaultEdgeCoreConfig.rest ∧
        p.2.Modules.rest = ext.NewDefaultEdgeCoreConfig.Modules.rest ∧
        p.2.Modules.EdgeHub.rest = ext.NewDefaultEdgeCoreConfig.Modules.EdgeHub.rest ∧
        p.2.Modules.EdgeHub.WebSocket.rest =
          ext.NewDefaultEdgeCoreConfig.Modules.EdgeHub.WebSocket.rest ∧
        p.2.Modules.EdgeHub.Quic.rest = ext.NewDefaultEdgeCoreConfig.Modules.EdgeHub.Quic.rest ∧
        p.2.Modules.Edged.rest = ext.NewDefaultEdgeCoreConfig.Modules.Edged.rest ∧
        p.2.Modules.EdgeStream.rest = ext.NewDefaultEdgeCoreConfig.Modules.EdgeStream.rest) ∧
      ((ext.MkdirAll k.KubeEdgeNewConfigDir ModePerm w.sys).1 = none → validCGroupDriver ku →
        ∃ doc, writtenDocs (callsOf (createEdgeConfigFiles k ext ku) w) =
          [(k.KubeEdgeEdgeCoreNewYaml, doc)]) := by
  rw [writtenDocs_modern k ext ku w h]
  constructor
  · intro p hp
    split_ifs at hp with hc
    · simp only [List.mem_singleton] at hp
      subst hp
      exact ⟨rfl, rfl, rfl, rfl, rfl, rfl, rfl⟩
    · simp at hp
  · intro hm hv
    exact ⟨modernDoc k ext.NewDefaultEdgeCoreConfig ku, by simp [hm, hv]⟩

/-- C14 on the sample system, whose untouched fields are all `()`: version
1.3.0 writes one document, and it has the default document's other fields. -/
theorem C14_frame_witness :
    Version.GE ⟨1, 3, 0, [], []⟩ v1_2_0 = true ∧
      (∀ p ∈ writtenDocs (callsOf (createEdgeConfigFiles demoConsts (demoExt false none none none)
          { demoTool ⟨1, 3, 0, [], []⟩ "1.2.3.4:443" with Token := "t0k3n" }) demoWorld),
        p.2.rest = () ∧ p.2.Modules.rest = () ∧ p.2.Modules.EdgeHub.rest = () ∧
          p.2.Modules.EdgeHub.WebSocket.rest = () ∧ p.2.Modules.EdgeHub.Quic.rest = () ∧
          p.2.Modules.Edged.rest = () ∧ p.2.Modules.EdgeStream.rest = ()) ∧
      (∃ doc, writtenDocs (callsOf (createEdgeConfigFiles demoConsts (demoExt false none none none)
          { demoTool ⟨1, 3, 0, [], []⟩ "1.2.3.4:443" with Token := "t0k3n" }) demoWorld) =
        [("/etc/kubeedge/config/edgecore.yaml", doc)]) :=
  ⟨by decide,
    (C14_frame demoConsts (demoExt false none none none)
      { demoTool ⟨1, 3, 0, [], []⟩ "1.2.3.4:443" with Token := "t0k3n" } demoWorld
      (by decide)).1,
    (C14_frame demoConsts (demoExt false none none none)
      { demoTool ⟨1, 3, 0, [], []⟩ "1.2.3.4:443" with Token := "t0k3n" } demoWorld
      (by decide)).2 rfl (by decide)⟩

/-- C15: whenever `createEdgeConfigFiles` returns an error, no shell copy has
been run, whatever `ConfigPath` is; and when the modern branch rejects the
cgroup driver after a successful directory creation, it returns the
unsupported-CGroupDriver error having performed the directory creation and
nothing else: no document is written and the state is the one `MkdirAll`
left. -/
theorem C15_error_effects (k : Consts) (ext : Ext σ ρ) (ku : KubeEdgeInstTool)
    (w : World σ ρ) :
    ((createEdgeConfigFiles k ext ku w).1 ≠ none →
      shellCommands (callsOf (createEdgeConfigFiles k ext ku) w) = []) ∧
    (ku.ToolVersion.GE v1_2_0 = true →
      (ext.MkdirAll k.KubeEdgeNewConfigDir ModePerm w.sys).1 = none →
      ¬ validCGroupDriver ku →
      createEdgeConfigFiles k ext ku w =
        (some ("unsupported CGroupDriver: " ++ ku.CGroupDriver),
          { sys := (ext.MkdirAll k.KubeEdgeNewConfigDir ModePerm w.sys).2
            KubeEdgeDownloadURL := w.KubeEdgeDownloadURL
            ServiceFileURLFormat := w.ServiceFileURLFormat
            calls := w.calls ++ [Call.MkdirAll k.KubeEdgeNewConfigDir ModePerm] })) := by
  constructor
  · intro herr
    rw [createEdgeConfigFiles_result] at herr
    cases h : ku.ToolVersion.GE v1_2_0 with
    | true =>
      rw [callsOf_eq (createEdgeConfigFiles_modern_calls k ext ku w h)]
      simp only [h, if_true] at herr
      split_ifs with h1 h2
      · exfalso
        simp only [h1.1, h1.2, if_true] at herr
        exact herr h2
      · rfl
      · rfl
    | false =>
      rw [callsOf_eq (createEdgeConfigFiles_legacy_calls k ext ku w h)]
      simp only [h, Bool.false_eq_true, if_false] at herr
      split_ifs with h1 h2 h3
      · exfalso
        simp only [h1, h2, if_true] at herr
        exact herr h3
      · rfl
      · rfl
      · rfl
  · intro h hm hv
    rw [createEdgeConfigFiles_modern k ext ku w h]
    unfold modernRun
    simp only [MkdirAll, call_apply, hm, hv, if_true, if_false]

/-- C15 on the sample system: version 1.3.0 with `CGroupDriver = "bogus"` and a
`ConfigPath` creates the directory, writes nothing and copies nothing. -/
theorem C15_error_effects_witness :
    createEdgeConfigFiles demoConsts (demoExt false none none none)
        { demoTool ⟨1, 3, 0, [], []⟩ "1.2.3.4:443" with
          CGroupDriver := "bogus", ConfigPath := "/tmp/edge.yaml" } demoWorld =
      (some "unsupported CGroupDriver: bogus",
        { sys := 1
          KubeEdgeDownloadURL := "https://default.example/download"
          ServiceFileURLFormat := "https://default.example/service/%s/%s"
          calls := [Call.MkdirAll "/etc/kubeedge/config/" 0o777] }) ∧
      shellCommands (callsOf (createEdgeConfigFiles demoConsts (demoExt false none none none)
        { demoTool ⟨1, 3, 0, [], []⟩ "1.2.3.4:443" with
          CGroupDriver := "bogus", ConfigPath := "/tmp/edge.yaml" }) demoWorld) = [] :=
  ⟨(C15_error_effects demoConsts (demoExt false none none none)
      { demoTool ⟨1, 3, 0, [], []⟩ "1.2.3.4:443" with
        CGroupDriver := "bogus", ConfigPath := "/tmp/edge.yaml" } demoWorld).2
      (by decide) rfl (by decide),
    (C15_error_effects demoConsts (demoExt false none none none)
      { demoTool ⟨1, 3, 0, [], []⟩ "1.2.3.4:443" with
        CGroupDriver := "bogus", ConfigPath := "/tmp/edge.yaml" } demoWorld).1 (by decide)⟩

/-- C16: for every `CloudCoreIP`, `strings.Split(CloudCoreIP, ":")` is never
empty, so index 0 is in range and holds the extracted host; the host contains no
`':'` and is a prefix of `CloudCoreIP`. -/
theorem C16_host_extraction (CloudCoreIP : String) :
    stringsSplit CloudCoreIP ":" ≠ [] ∧
      (stringsSplit CloudCoreIP ":")[0]? = some (splitHost CloudCoreIP) ∧
      ':' ∉ (splitHost CloudCoreIP).data ∧
      (splitHost CloudCoreIP).data <+: CloudCoreIP.data := by
  have hne := stringsSplit_ne_nil CloudCoreIP ":" (by decide)
  refine ⟨hne, ?_, ?_, ?_⟩
  · unfold splitHost
    rw [← List.head?_eq_getElem?, List.head?_eq_head hne]
  · rw [splitHost_eq_hostPrefix]
    unfold hostPrefix
    intro hmem
    have := List.mem_takeWhile_imp hmem
    simp at this
  · rw [splitHost_eq_hostPrefix]
    unfold hostPrefix
    exact List.takeWhile_prefix _

/-- C16 on the empty string, a string without `':'`, one with a port and one
with several `':'`. -/
theorem C16_host_extraction_witness :
    (stringsSplit "" ":")[0]? = some "" ∧
      (stringsSplit "cloudcore" ":")[0]? = some "cloudcore" ∧
      (stringsSplit "1.2.3.4:443" ":")[0]? = some "1.2.3.4" ∧
      (stringsSplit "fe80::1:10000" ":")[0]? = some "fe80" :=
  ⟨(C16_host_extraction "").2.1.trans (by decide),
    (C16_host_extraction "cloudcore").2.1.trans (by decide),
    (C16_host_extraction "1.2.3.4:443").2.1.trans (by decide),
    (C16_host_extraction "fe80::1:10000").2.1.trans (by decide)⟩

end Claims

end KubeEdge
